import Mathlib

/-!
# mxt-app: command selection, register-window resolution and step orchestration

A shallow embedding of `src/tools/mxt_app/mxt_app.c` (functions `mxt_init_chip`
and `main`).

* Machine integers are `Nat`/`Int` with explicit reduction at every store
  (`uint8_t` : `% 2^8`, `uint16_t` : `% 2^16`, `int` : two's complement 32 bit).
* `getopt_long` belongs to the C library.  One call of it is represented by a
  `GetoptResult` (the returned `c`, the `option_index` it stored and `optarg`);
  `main` consumes the list of results up to the terminating `-1`, followed by
  the positional arguments `argv[optind..argc-1]`.
* Calls into libmaxtouch are recorded, in order, in a trace of `Call`s; what
  they return is supplied by a `World`.  Every collaborator is called at most
  once on any path through `main`, so a `World` of plain return values is
  enough.
* `LOG(...)` lines only write to the log and are left out of the trace.
-/

namespace MxtApp

/-! ## C integer conversions -/

/-- Conversion of a C integer value to `uint8_t`. -/
def to_uint8 (x : Int) : Nat := (x % 256).toNat

/-- Conversion of a C integer value to `uint16_t`. -/
def to_uint16 (x : Int) : Nat := (x % 65536).toNat

/-- Conversion of a `long` to `int` (32 bit two's complement). -/
def to_int (x : Int) : Int := (x + 2147483648) % 4294967296 - 2147483648

/-! ## `strtol` (C library) -/

/-- Value of a character as a digit in bases up to 36, as `strtol` reads it. -/
def digitVal (c : Char) : Option Nat :=
  if 48 ≤ c.toNat ∧ c.toNat ≤ 57 then some (c.toNat - 48)
  else if 97 ≤ c.toNat ∧ c.toNat ≤ 122 then some (c.toNat - 97 + 10)
  else if 65 ≤ c.toNat ∧ c.toNat ≤ 90 then some (c.toNat - 65 + 10)
  else none

/-- The C `isspace` in the "C" locale. -/
def isspace (c : Char) : Bool :=
  c.toNat = 32 || (9 ≤ c.toNat && c.toNat ≤ 13)

/-- Accumulate the longest run of digits valid in `base`. -/
def strtolDigits (base : Nat) : List Char → Nat → Nat
  | [], acc => acc
  | c :: cs, acc =>
    match digitVal c with
    | some d => if d < base then strtolDigits base cs (acc * base + d) else acc
    | none => acc

/-- Is `c` a digit valid in `base`? -/
def isDigitIn (base : Nat) (c : Char) : Bool :=
  match digitVal c with
  | some d => decide (d < base)
  | none => false

/-- After white space and sign: choose the base, skip a `0x` that is followed
by a hex digit, and read the digits.  No digits at all gives 0. -/
def strtolMagnitude (base : Nat) (cs : List Char) : Nat :=
  match cs with
  | z :: x :: h :: rest =>
    if z = '0' ∧ (x = 'x' ∨ x = 'X') ∧ isDigitIn 16 h ∧ (base = 0 ∨ base = 16) then
      strtolDigits 16 (h :: rest) 0
    else if base = 0 then
      (if z = '0' then strtolDigits 8 cs 0 else strtolDigits 10 cs 0)
    else strtolDigits base cs 0
  | _ =>
    if base = 0 then
      (match cs with
       | z :: _ => if z = '0' then strtolDigits 8 cs 0 else strtolDigits 10 cs 0
       | [] => 0)
    else strtolDigits base cs 0

/-- The value of `strtol(s, NULL, base)` for `base` 0 or 2..36, with a 64 bit
`long`: leading white space is skipped, an optional sign is read, the longest
run of digits is converted, out-of-range values are clamped to `LONG_MAX` /
`LONG_MIN`, and a string with no digits converts to 0 (no error is signalled
through the return value). -/
def strtol (s : String) (base : Nat) : Int :=
  let cs := s.toList.dropWhile isspace
  let (neg, ds) : Bool × List Char :=
    match cs with
    | c :: rest => if c = '-' then (true, rest) else if c = '+' then (false, rest) else (false, cs)
    | [] => (false, [])
  let m := strtolMagnitude base ds
  if neg then (if m > 9223372036854775808 then -9223372036854775808 else -(m : Int))
  else (if m > 9223372036854775807 then 9223372036854775807 else (m : Int))

/-! ## Data model of `main` -/

/-- The enumeration `mxt_app_cmd`. -/
inductive mxt_app_cmd
  | CMD_NONE
  | CMD_TEST
  | CMD_WRITE
  | CMD_READ
  | CMD_GOLDEN_REFERENCES
  | CMD_BRIDGE_CLIENT
  | CMD_BRIDGE_SERVER
  | CMD_SERIAL_DATA
  | CMD_FLASH
  | CMD_RESET
  | CMD_RESET_BOOTLOADER
  | CMD_BACKUP
  | CMD_CALIBRATE
  | CMD_DEBUG_DUMP
  | CMD_LOAD_CFG
  | CMD_SAVE_CFG
  deriving DecidableEq, Repr

open mxt_app_cmd

/-- The two T37 capture modes named in `main` (`DELTAS_MODE`, `REFS_MODE`). -/
inductive t37_mode_t
  | DELTAS_MODE
  | REFS_MODE
  deriving DecidableEq, Repr

/-- The size of `databuf`, `strbuf` and `strbuf2`. -/
def BUF_SIZE : Nat := 1024

/-- One row of `long_options` (the `flag` column is 0 in every row). -/
structure long_option where
  name : String
  has_arg : Bool
  val : Int
  deriving DecidableEq, Repr

/-- A character constant as an `int`. -/
def chr (c : Char) : Int := (c.toNat : Int)

/-- The table `long_options` of `main`, without its terminating null row. -/
def long_options : List long_option :=
  [ ⟨"i2c-address", true, chr 'a'⟩,
    ⟨"backup", false, 0⟩,
    ⟨"bridge-client", true, chr 'C'⟩,
    ⟨"calibrate", false, 0⟩,
    ⟨"debug-dump", true, 0⟩,
    ⟨"i2c-adapter", true, chr 'd'⟩,
    ⟨"t68-file", true, 0⟩,
    ⟨"t68-datatype", true, 0⟩,
    ⟨"format", false, chr 'f'⟩,
    ⟨"flash", true, 0⟩,
    ⟨"firmware-version", true, 0⟩,
    ⟨"frames", true, 0⟩,
    ⟨"help", false, chr 'h'⟩,
    ⟨"instance", true, chr 'I'⟩,
    ⟨"load", true, 0⟩,
    ⟨"save", true, 0⟩,
    ⟨"count", true, chr 'n'⟩,
    ⟨"port", true, chr 'p'⟩,
    ⟨"read", false, chr 'R'⟩,
    ⟨"reset", false, 0⟩,
    ⟨"reset-bootloader", false, 0⟩,
    ⟨"register", true, chr 'r'⟩,
    ⟨"references", false, 0⟩,
    ⟨"bridge-server", false, chr 'S'⟩,
    ⟨"test", false, chr 't'⟩,
    ⟨"type", true, chr 'T'⟩,
    ⟨"verbose", true, chr 'v'⟩,
    ⟨"version", false, 0⟩,
    ⟨"write", false, chr 'W'⟩ ]

/-- The short option string given to `getopt_long`, as (letter, takes a value). -/
def optstring : List (Char × Bool) :=
  [ ('a', true), ('C', true), ('d', true), ('D', true), ('f', false), ('g', false),
    ('h', false), ('I', true), ('n', true), ('p', true), ('R', false), ('r', true),
    ('S', false), ('t', false), ('T', true), ('v', true), ('W', false) ]

/-- What one call of `getopt_long` hands back to the loop of `main`: the
return value `c` (never `-1`; the end of the options is the end of the list),
the `option_index` it stored (0 when a short option was read) and `optarg`.
`c = '?'` is what `getopt_long` returns for an unrecognised option and for an
option whose required value is missing. -/
structure GetoptResult where
  c : Int
  option_index : Nat
  optarg : Option String
  deriving DecidableEq, Repr

/-- The local variables of `main` that the option loop writes. -/
structure Params where
  address : Nat
  count : Nat
  i2c_address : Int
  i2c_adapter : Int
  object_type : Nat
  instance_ : Nat
  verbose : Nat
  t37_frames : Nat
  t37_mode : t37_mode_t
  format : Bool
  port : Nat
  t68_datatype : Nat
  strbuf : String
  strbuf2 : String
  cmd : mxt_app_cmd
  deriving DecidableEq, Repr

/-- The initial values of the locals of `main`. -/
def Params.init : Params :=
  { address := 0, count := 0, i2c_address := -1, i2c_adapter := -1,
    object_type := 0, instance_ := 0, verbose := 0, t37_frames := 1,
    t37_mode := t37_mode_t.DELTAS_MODE, format := false, port := 4000,
    t68_datatype := 1, strbuf := "", strbuf2 := "", cmd := CMD_NONE }

/-- Everything `main` does that is visible outside it, in order. -/
inductive Call
  | print_usage
  | printf (s : String)
  | mxt_set_verbose (level : Nat)
  | i2c_dev_set_address (adapter address : Int)
  | mxt_scan
  | mxt_get_info
  | mxt_set_debug (enable : Bool)
  | get_object_address (object_type inst : Nat)
  | get_object_size (object_type : Nat)
  | mxt_convert_hex (hex : String) (count buf_size : Nat)
  | mxt_write_register (data : List Nat) (address count : Nat)
  | read_object (object_type inst address count : Nat) (format : Bool)
  | mxt_store_golden_refs
  | mxt_socket_server (port : Nat)
  | mxt_socket_client (host : String) (port : Nat)
  | mxt_serial_data_upload (file : String) (datatype : Nat)
  | run_self_tests
  | mxt_flash_firmware (file version : String) (adapter address : Int)
  | mxt_reset_chip (bootloader : Bool)
  | mxt_backup_config
  | mxt_calibrate_chip
  | mxt_debug_dump (mode : t37_mode_t) (file : String) (frames : Nat)
  | mxt_load_config_file (file : String)
  | mxt_save_config_file (file : String)
  | mxt_menu
  | mxt_release
  deriving DecidableEq, Repr

/-- What the collaborators return.  `OBJECT_NOT_FOUND` is the constant of the
libmaxtouch headers that `get_object_address` returns for an absent entry. -/
structure World where
  i2c_dev_set_address : Int → Int → Int
  mxt_scan : Int
  mxt_get_info : Int
  OBJECT_NOT_FOUND : Nat
  get_object_address : Nat → Nat → Nat
  get_object_size : Nat → Nat
  mxt_write_register : List Nat → Nat → Nat → Int
  read_object : Nat → Nat → Nat → Nat → Bool → Int
  mxt_store_golden_refs : Int
  mxt_socket_server : Nat → Int
  mxt_socket_client : String → Nat → Int
  mxt_serial_data_upload : String → Nat → Int
  run_self_tests : Int
  mxt_flash_firmware : String → String → Int → Int → Int
  mxt_reset_chip : Bool → Int
  mxt_backup_config : Int
  mxt_calibrate_chip : Int
  mxt_debug_dump : t37_mode_t → String → Nat → Int
  mxt_load_config_file : String → Int
  mxt_save_config_file : String → Int
  mxt_menu : Int

/-- The result of running `main`: its return value and the trace of calls. -/
structure Outcome where
  ret : Int
  trace : List Call
  deriving DecidableEq, Repr

/-! ## The option loop of `main` -/

/-- How one pass through the body of the `while (1)` loop ends: with `break`
out of the `switch` (the loop goes on with the updated locals) or with a
`return` from `main`. -/
inductive Step
  | next (st : Params) (out : List Call)
  | exit (code : Int) (out : List Call)
  deriving DecidableEq, Repr

/-- The expression `long_options[option_index].name`. -/
def long_option_name (option_index : Nat) : String :=
  match long_options.get? option_index with
  | some o => o.name
  | none => ""

/-- The string `optarg` points to (`getopt_long` sets it for every option
that takes a value). -/
def optarg_str (r : GetoptResult) : String := r.optarg.getD ""

/-- The effect of `strncpy(buf, optarg, sizeof(buf)); buf[sizeof(buf) - 1] = 0`. -/
def strncpy_terminated (src : String) : String :=
  String.mk (src.toList.take (BUF_SIZE - 1))

/-- The effect of `strncpy(strbuf2, optarg, sizeof(strbuf2))`. -/
def strncpy_plain (src : String) : String :=
  String.mk (src.toList.take BUF_SIZE)

/-- The body of the option loop: the `switch (c)` of `main`, lines 240-480. -/
def getopt_case (st : Params) (r : GetoptResult) : Step :=
  if r.c = 0 then
    if long_option_name r.option_index = "t68-file" then
      if st.cmd = CMD_NONE then
        Step.next { st with cmd := CMD_SERIAL_DATA, strbuf := strncpy_terminated (optarg_str r) } []
      else Step.exit (-1) [Call.print_usage]
    else if long_option_name r.option_index = "t68-datatype" then
      Step.next { st with t68_datatype := to_uint8 (strtol (optarg_str r) 0) } []
    else if long_option_name r.option_index = "flash" then
      if st.cmd = CMD_NONE then
        Step.next { st with cmd := CMD_FLASH, strbuf := strncpy_terminated (optarg_str r) } []
      else Step.exit (-1) [Call.print_usage]
    else if long_option_name r.option_index = "backup" then
      if st.cmd = CMD_NONE then Step.next { st with cmd := CMD_BACKUP } []
      else Step.exit (-1) [Call.print_usage]
    else if long_option_name r.option_index = "calibrate" then
      if st.cmd = CMD_NONE then Step.next { st with cmd := CMD_CALIBRATE } []
      else Step.exit (-1) [Call.print_usage]
    else if long_option_name r.option_index = "debug-dump" then
      if st.cmd = CMD_NONE then
        Step.next { st with cmd := CMD_DEBUG_DUMP, strbuf := strncpy_terminated (optarg_str r) } []
      else Step.exit (-1) [Call.print_usage]
    else if long_option_name r.option_index = "reset" then
      if st.cmd = CMD_NONE then Step.next { st with cmd := CMD_RESET } []
      else Step.exit (-1) [Call.print_usage]
    else if long_option_name r.option_index = "load" then
      if st.cmd = CMD_NONE then
        Step.next { st with cmd := CMD_LOAD_CFG, strbuf := strncpy_terminated (optarg_str r) } []
      else Step.exit (-1) [Call.print_usage]
    else if long_option_name r.option_index = "save" then
      if st.cmd = CMD_NONE then
        Step.next { st with cmd := CMD_SAVE_CFG, strbuf := strncpy_terminated (optarg_str r) } []
      else Step.exit (-1) [Call.print_usage]
    else if long_option_name r.option_index = "reset-bootloader" then
      if st.cmd = CMD_NONE then Step.next { st with cmd := CMD_RESET_BOOTLOADER } []
      else Step.exit (-1) [Call.print_usage]
    else if long_option_name r.option_index = "firmware-version" then
      Step.next { st with strbuf2 := strncpy_plain (optarg_str r) } []
    else if long_option_name r.option_index = "frames" then
      Step.next { st with t37_frames := to_uint16 (strtol (optarg_str r) 0) } []
    else if long_option_name r.option_index = "references" then
      Step.next { st with t37_mode := t37_mode_t.REFS_MODE } []
    else if long_option_name r.option_index = "version" then
      Step.exit 0 [Call.printf "mxt-app %s\n"]
    else
      Step.next st [Call.printf "Unknown option %s\n"]
  else if r.c = chr 'a' then
    match r.optarg with
    | some a => Step.next { st with i2c_address := to_int (strtol a 16) } []
    | none => Step.next st []
  else if r.c = chr 'd' then
    match r.optarg with
    | some a => Step.next { st with i2c_adapter := to_int (strtol a 0) } []
    | none => Step.next st []
  else if r.c = chr 'C' then
    if st.cmd = CMD_NONE then
      Step.next { st with cmd := CMD_BRIDGE_CLIENT, strbuf := strncpy_terminated (optarg_str r) } []
    else Step.exit (-1) [Call.print_usage]
  else if r.c = chr 'g' then
    if st.cmd = CMD_NONE then Step.next { st with cmd := CMD_GOLDEN_REFERENCES } []
    else Step.exit (-1) [Call.print_usage]
  else if r.c = chr 'h' then
    Step.exit 0 [Call.print_usage]
  else if r.c = chr 'f' then
    Step.next { st with format := true } []
  else if r.c = chr 'I' then
    match r.optarg with
    | some a => Step.next { st with instance_ := to_uint8 (strtol a 0) } []
    | none => Step.next st []
  else if r.c = chr 'n' then
    match r.optarg with
    | some a => Step.next { st with count := to_uint8 (strtol a 0) } []
    | none => Step.next st []
  else if r.c = chr 'p' then
    match r.optarg with
    | some a => Step.next { st with port := to_uint16 (strtol a 0) } []
    | none => Step.next st []
  else if r.c = chr 'r' then
    match r.optarg with
    | some a => Step.next { st with address := to_uint16 (strtol a 0) } []
    | none => Step.next st []
  else if r.c = chr 'R' then
    if st.cmd = CMD_NONE then Step.next { st with cmd := CMD_READ } []
    else Step.exit (-1) [Call.print_usage]
  else if r.c = chr 'S' then
    if st.cmd = CMD_NONE then Step.next { st with cmd := CMD_BRIDGE_SERVER } []
    else Step.exit (-1) [Call.print_usage]
  else if r.c = chr 'T' then
    match r.optarg with
    | some a => Step.next { st with object_type := to_uint16 (strtol a 0) } []
    | none => Step.next st []
  else if r.c = chr 't' then
    if st.cmd = CMD_NONE then Step.next { st with cmd := CMD_TEST } []
    else Step.exit (-1) [Call.print_usage]
  else if r.c = chr 'v' then
    match r.optarg with
    | some a =>
      Step.next { st with verbose := to_uint8 (strtol a 0) }
        [Call.mxt_set_verbose (to_uint8 (strtol a 0))]
    | none => Step.next st []
  else if r.c = chr 'W' then
    if st.cmd = CMD_NONE then Step.next { st with cmd := CMD_WRITE } []
    else Step.exit (-1) [Call.print_usage]
  else
    Step.exit (-1) [Call.printf "\n\n", Call.print_usage]

/-- The `while (1)` loop of `main` over the successive results of
`getopt_long`; the list ends where `getopt_long` returns `-1`. -/
def option_loop : Params → List GetoptResult → Step
  | st, [] => Step.next st []
  | st, r :: rs =>
    match getopt_case st r with
    | Step.exit code out => Step.exit code out
    | Step.next st1 out =>
      match option_loop st1 rs with
      | Step.next st2 out2 => Step.next st2 (out ++ out2)
      | Step.exit code out2 => Step.exit code (out ++ out2)

/-! ## Device initialisation -/

/-- The function `mxt_init_chip`: its return value and the calls it makes. -/
def mxt_init_chip (w : World) (adapter address : Int) : Int × List Call :=
  if adapter ≥ 0 ∧ address > 0 then
    if w.i2c_dev_set_address adapter address < 0 then
      (-1, [Call.i2c_dev_set_address adapter address,
            Call.printf "Failed to init device - exiting the application\n"])
    else if w.mxt_get_info < 0 then
      (-1, [Call.i2c_dev_set_address adapter address, Call.mxt_get_info,
            Call.printf "Error reading info block, exiting...\n"])
    else (0, [Call.i2c_dev_set_address adapter address, Call.mxt_get_info])
  else
    if w.mxt_scan = 0 then
      (-1, [Call.mxt_scan,
            Call.printf "Unable to find any maXTouch devices - exiting the application\n"])
    else if w.mxt_scan < 0 then
      (-1, [Call.mxt_scan, Call.printf "Failed to init device - exiting the application\n"])
    else if w.mxt_get_info < 0 then
      (-1, [Call.mxt_scan, Call.mxt_get_info,
            Call.printf "Error reading info block, exiting...\n"])
    else (0, [Call.mxt_scan, Call.mxt_get_info])

/-! ## The hex decoder -/

/-- Value of one hex digit. -/
def hexDigit (c : Char) : Option Nat :=
  match digitVal c with
  | some d => if d < 16 then some d else none
  | none => none

/-- Decode a string of hex digits two at a time. -/
def hexPairs : List Char → Option (List Nat)
  | [] => some []
  | [_] => none
  | h :: l :: rest =>
    match hexDigit h, hexDigit l, hexPairs rest with
    | some a, some b, some bs => some ((a * 16 + b) :: bs)
    | _, _, _ => none

/-- Modelled from the spec: `mxt_convert_hex` of libmaxtouch (utilfuncs.c, not
under src/), called as `mxt_convert_hex(hex, databuf, &count, buf_size)`.  The
hex string is decoded into the write buffer of capacity `buf_size`.  The
resolved register length, which the caller hands over in `*count`, bounds how
many decoded bytes are accepted: more hex digits than fit is an error (hex
overflow), fewer is permitted.  A string that is not hex is an error.  On
success the decoded bytes are returned; their number is what the function
stores back through `count`. -/
def mxt_convert_hex (hex : String) (count buf_size : Nat) : Option (List Nat) :=
  match hexPairs hex.toList with
  | some bytes =>
    if bytes.length ≤ count ∧ bytes.length ≤ buf_size then some bytes else none
  | none => none

/-! ## The command switch -/

/-- How the first part of `case CMD_WRITE` (lines 510-528) ends: with a
register window in `address` and `count`, with `break` after "No such object",
or with `return -1` after "Not enough arguments!". -/
inductive Resolved
  | window (address count : Nat) (out : List Call)
  | no_such_object (out : List Call)
  | not_enough_arguments (out : List Call)
  deriving DecidableEq, Repr

/-- Lines 510-528 of `main`: resolution of the register window of the write
command from the locals `object_type`, `instance`, `address`, `count`. -/
def write_resolve (w : World) (object_type inst address count : Nat) : Resolved :=
  if object_type > 0 then
    if w.get_object_address object_type inst % 65536 = w.OBJECT_NOT_FOUND then
      Resolved.no_such_object
        [Call.get_object_address object_type inst, Call.printf "No such object\n"]
    else if count = 0 then
      Resolved.window ((w.get_object_address object_type inst % 65536 + address) % 65536)
        (w.get_object_size object_type % 256)
        [Call.get_object_address object_type inst, Call.get_object_size object_type]
    else
      Resolved.window ((w.get_object_address object_type inst % 65536 + address) % 65536)
        count [Call.get_object_address object_type inst]
  else if count = 0 then
    Resolved.not_enough_arguments [Call.printf "Not enough arguments!\n"]
  else Resolved.window address count []

/-- How the `switch (cmd)` of `main` ends: with `break` (the teardown
follows) or with a `return` from `main`. -/
inductive Flow
  | brk (ret : Int) (out : List Call)
  | rtn (ret : Int) (out : List Call)
  deriving DecidableEq, Repr

/-- Lines 530-544 of `main`: the positional argument check, the hex
conversion and the register write, from the resolved `address` and `count`.
`args` is `argv[optind .. argc-1]`.  The decoder is given `&count`, which
holds the resolved length, and `sizeof(databuf)`; it stores the number of
decoded bytes through `&count` into the `uint8_t` `count`, which is then the
length passed to `mxt_write_register`. -/
def write_data (w : World) (address count : Nat) (args : List String) : Flow :=
  match args with
  | [hex] =>
    match mxt_convert_hex hex count BUF_SIZE with
    | none =>
      Flow.brk (-1)
        [Call.mxt_convert_hex hex count BUF_SIZE, Call.printf "Hex convert error\n"]
    | some bytes =>
      if w.mxt_write_register bytes address (bytes.length % 256) < 0 then
        Flow.brk (w.mxt_write_register bytes address (bytes.length % 256))
          [Call.mxt_convert_hex hex count BUF_SIZE,
           Call.mxt_write_register bytes address (bytes.length % 256),
           Call.printf "Write error\n"]
      else
        Flow.brk (w.mxt_write_register bytes address (bytes.length % 256))
          [Call.mxt_convert_hex hex count BUF_SIZE,
           Call.mxt_write_register bytes address (bytes.length % 256)]
  | _ => Flow.rtn (-1) [Call.printf "Must give hex input\n"]

/-- The `case CMD_LOAD_CFG` of `main` (lines 610-642). -/
def load_cfg (w : World) (strbuf : String) : Int × List Call :=
  if w.mxt_load_config_file strbuf < 0 then
    (w.mxt_load_config_file strbuf, [Call.mxt_load_config_file strbuf])
  else if w.mxt_backup_config < 0 then
    (w.mxt_backup_config, [Call.mxt_load_config_file strbuf, Call.mxt_backup_config])
  else
    (w.mxt_reset_chip false,
      [Call.mxt_load_config_file strbuf, Call.mxt_backup_config, Call.mxt_reset_chip false])

/-- The `switch (cmd)` of `main` (lines 506-655). -/
def command_switch (w : World) (st : Params) (args : List String) : Flow :=
  match st.cmd with
  | CMD_WRITE =>
    match write_resolve w st.object_type st.instance_ st.address st.count with
    | Resolved.no_such_object out => Flow.brk (-1) out
    | Resolved.not_enough_arguments out => Flow.rtn (-1) out
    | Resolved.window address count out =>
      match write_data w address count args with
      | Flow.brk ret out2 => Flow.brk ret (out ++ out2)
      | Flow.rtn ret out2 => Flow.rtn ret (out ++ out2)
  | CMD_READ =>
    Flow.brk (w.read_object st.object_type st.instance_ st.address st.count st.format)
      [Call.read_object st.object_type st.instance_ st.address st.count st.format]
  | CMD_GOLDEN_REFERENCES => Flow.brk w.mxt_store_golden_refs [Call.mxt_store_golden_refs]
  | CMD_BRIDGE_SERVER => Flow.brk (w.mxt_socket_server st.port) [Call.mxt_socket_server st.port]
  | CMD_BRIDGE_CLIENT =>
    Flow.brk (w.mxt_socket_client st.strbuf st.port) [Call.mxt_socket_client st.strbuf st.port]
  | CMD_SERIAL_DATA =>
    Flow.brk (w.mxt_serial_data_upload st.strbuf st.t68_datatype)
      [Call.mxt_serial_data_upload st.strbuf st.t68_datatype]
  | CMD_TEST => Flow.brk w.run_self_tests [Call.run_self_tests]
  | CMD_FLASH =>
    Flow.brk (w.mxt_flash_firmware st.strbuf st.strbuf2 st.i2c_adapter st.i2c_address)
      [Call.mxt_flash_firmware st.strbuf st.strbuf2 st.i2c_adapter st.i2c_address]
  | CMD_RESET => Flow.brk (w.mxt_reset_chip false) [Call.mxt_reset_chip false]
  | CMD_RESET_BOOTLOADER => Flow.brk (w.mxt_reset_chip true) [Call.mxt_reset_chip true]
  | CMD_BACKUP => Flow.brk w.mxt_backup_config [Call.mxt_backup_config]
  | CMD_CALIBRATE => Flow.brk w.mxt_calibrate_chip [Call.mxt_calibrate_chip]
  | CMD_DEBUG_DUMP =>
    Flow.brk (w.mxt_debug_dump st.t37_mode st.strbuf st.t37_frames)
      [Call.mxt_debug_dump st.t37_mode st.strbuf st.t37_frames]
  | CMD_LOAD_CFG => Flow.brk (load_cfg w st.strbuf).1 (load_cfg w st.strbuf).2
  | CMD_SAVE_CFG => Flow.brk (w.mxt_save_config_file st.strbuf) [Call.mxt_save_config_file st.strbuf]
  | CMD_NONE => Flow.brk w.mxt_menu [Call.mxt_menu]

/-- Lines 506-660 of `main`: the command switch followed, unless the switch
returned, by the teardown `mxt_set_debug(false); mxt_release()`. -/
def run_command (w : World) (st : Params) (args : List String) : Outcome :=
  match command_switch w st args with
  | Flow.brk ret out => ⟨ret, out ++ [Call.mxt_set_debug false, Call.mxt_release]⟩
  | Flow.rtn ret out => ⟨ret, out⟩

/-- Lines 495-660 of `main`: what follows the option loop, from the values
`st` of the locals. -/
def after_options (w : World) (st : Params) (args : List String) : Outcome :=
  if st.cmd ≠ CMD_FLASH then
    if (mxt_init_chip w st.i2c_adapter st.i2c_address).1 < 0 then
      ⟨(mxt_init_chip w st.i2c_adapter st.i2c_address).1,
       (mxt_init_chip w st.i2c_adapter st.i2c_address).2⟩
    else
      ⟨(run_command w st args).ret,
       (mxt_init_chip w st.i2c_adapter st.i2c_address).2 ++ [Call.mxt_set_debug true]
         ++ (run_command w st args).trace⟩
  else run_command w st args

/-- The function `main`.  `opts` are the successive results of `getopt_long`
and `args` the positional arguments `argv[optind .. argc-1]` left when it
returns `-1`. -/
def main (w : World) (opts : List GetoptResult) (args : List String) : Outcome :=
  match option_loop Params.init opts with
  | Step.exit code out => ⟨code, out⟩
  | Step.next st out =>
    ⟨(after_options w st args).ret, out ++ (after_options w st args).trace⟩

/-! ## Building option results and a sample device -/

/-- The result of `getopt_long` for the short option `-c`, with its value. -/
def opt_short (c : Char) (optarg : Option String) : GetoptResult :=
  ⟨chr c, 0, optarg⟩

/-- The result of `getopt_long` for the long option at row `i` of
`long_options`: it returns the `val` of the row and stores `i`. -/
def opt_long (i : Nat) (optarg : Option String) : GetoptResult :=
  match long_options.get? i with
  | some o => ⟨o.val, i, optarg⟩
  | none => ⟨chr '?', 0, none⟩

/-- The result of `getopt_long` for an unrecognised option or a missing
required value: `'?'`. -/
def opt_error : GetoptResult := ⟨chr '?', 0, none⟩

/-- A device found by the scan whose object directory has the single entry
(type 7, instance 0) at base 100 with declared size 8; every other
collaborator succeeds with 0. -/
def sampleWorld : World :=
  { i2c_dev_set_address := fun _ _ => 0,
    mxt_scan := 1,
    mxt_get_info := 0,
    OBJECT_NOT_FOUND := 0,
    get_object_address := fun t i => if t = 7 ∧ i = 0 then 100 else 0,
    get_object_size := fun t => if t = 7 then 8 else 0,
    mxt_write_register := fun _ _ _ => 0,
    read_object := fun _ _ _ _ _ => 0,
    mxt_store_golden_refs := 0,
    mxt_socket_server := fun _ => 0,
    mxt_socket_client := fun _ _ => 0,
    mxt_serial_data_upload := fun _ _ => 0,
    run_self_tests := 0,
    mxt_flash_firmware := fun _ _ _ _ => 0,
    mxt_reset_chip := fun _ => 0,
    mxt_backup_config := 0,
    mxt_calibrate_chip := 0,
    mxt_debug_dump := fun _ _ _ => 0,
    mxt_load_config_file := fun _ => 0,
    mxt_save_config_file := fun _ => 0,
    mxt_menu := 0 }

/-! ## Vocabulary of the specification -/

/-- The command selector as the specification words it:
`select(current, requested)` is `requested` when `current` is `None`, and a
usage error otherwise. -/
def select (current requested : mxt_app_cmd) : Option mxt_app_cmd :=
  if current = CMD_NONE then some requested else none

/-- The primary-command flags of the CLI surface and the command each one
requests: `-R` (`--read`), `-W` (`--write`), `-t` (`--test`), `-g`, `-C`
(`--bridge-client`), `-S` (`--bridge-server`), `--flash`, `--reset`, `--reset-bootloader`, `--backup`,
`--calibrate`, `--debug-dump`, `--load`, `--save`, `--t68-file`.  Every other
option result requests nothing. -/
def requested (r : GetoptResult) : Option mxt_app_cmd :=
  if r.c = chr 'R' then some CMD_READ
  else if r.c = chr 'W' then some CMD_WRITE
  else if r.c = chr 't' then some CMD_TEST
  else if r.c = chr 'g' then some CMD_GOLDEN_REFERENCES
  else if r.c = chr 'C' then some CMD_BRIDGE_CLIENT
  else if r.c = chr 'S' then some CMD_BRIDGE_SERVER
  else if r.c = 0 then
    if long_option_name r.option_index = "flash" then some CMD_FLASH
    else if long_option_name r.option_index = "reset" then some CMD_RESET
    else if long_option_name r.option_index = "reset-bootloader" then some CMD_RESET_BOOTLOADER
    else if long_option_name r.option_index = "backup" then some CMD_BACKUP
    else if long_option_name r.option_index = "calibrate" then some CMD_CALIBRATE
    else if long_option_name r.option_index = "debug-dump" then some CMD_DEBUG_DUMP
    else if long_option_name r.option_index = "load" then some CMD_LOAD_CFG
    else if long_option_name r.option_index = "save" then some CMD_SAVE_CFG
    else if long_option_name r.option_index = "t68-file" then some CMD_SERIAL_DATA
    else none
  else none

/-- An option result that is a primary-command flag. -/
def is_primary (r : GetoptResult) : Bool := (requested r).isSome

/-- The option `-h` / `--help`. -/
def is_help (r : GetoptResult) : Bool := decide (r.c = chr 'h')

/-- The option `--version`. -/
def is_version (r : GetoptResult) : Bool :=
  decide (r.c = 0) && decide (long_option_name r.option_index = "version")

/-- The calls that make up device initialisation (`mxt_init_chip`). -/
def is_device_init : Call → Bool
  | Call.i2c_dev_set_address _ _ => true
  | Call.mxt_scan => true
  | Call.mxt_get_info => true
  | _ => false

/-- The calls into the collaborators that carry out a command. -/
def is_command_call : Call → Bool
  | Call.get_object_address _ _ => true
  | Call.get_object_size _ => true
  | Call.mxt_convert_hex _ _ _ => true
  | Call.mxt_write_register _ _ _ => true
  | Call.read_object _ _ _ _ _ => true
  | Call.mxt_store_golden_refs => true
  | Call.mxt_socket_server _ => true
  | Call.mxt_socket_client _ _ => true
  | Call.mxt_serial_data_upload _ _ => true
  | Call.run_self_tests => true
  | Call.mxt_flash_firmware _ _ _ _ => true
  | Call.mxt_reset_chip _ => true
  | Call.mxt_backup_config => true
  | Call.mxt_calibrate_chip => true
  | Call.mxt_debug_dump _ _ _ => true
  | Call.mxt_load_config_file _ => true
  | Call.mxt_save_config_file _ => true
  | Call.mxt_menu => true
  | _ => false

/-- No device initialisation and no command call occurs in a trace. -/
def nothing_executed (t : List Call) : Prop :=
  ∀ c ∈ t, is_device_init c = false ∧ is_command_call c = false


/-- The object directory has an entry for (object type, instance): the value
that `get_object_address` leaves in the `uint16_t` `object_address` is not
`OBJECT_NOT_FOUND`. -/
def object_present (w : World) (object_type inst : Nat) : Prop :=
  w.get_object_address object_type inst % 65536 ≠ w.OBJECT_NOT_FOUND

/-- The hex conversion and the register write. -/
def is_hex_or_write : Call → Bool
  | Call.mxt_convert_hex _ _ _ => true
  | Call.mxt_write_register _ _ _ => true
  | _ => false

/-- The device of `sampleWorld` when reading its info block fails. -/
def infoFailWorld : World := { sampleWorld with mxt_get_info := -1 }

/-- The world of `sampleWorld` when the scan finds no device. -/
def noDeviceWorld : World := { sampleWorld with mxt_scan := 0 }

/-- The call that locates the device: `i2c_dev_set_address` on the explicit
adapter/address pair when adapter >= 0 and address > 0, the scan otherwise. -/
def locate_call (adapter address : Int) : Call :=
  if adapter ≥ 0 ∧ address > 0 then Call.i2c_dev_set_address adapter address
  else Call.mxt_scan

/-- The device is located: with an explicit adapter/address pair,
`i2c_dev_set_address` does not return a negative value; otherwise the scan
returns a positive number of devices. -/
def device_located (w : World) (adapter address : Int) : Prop :=
  ((adapter ≥ 0 ∧ address > 0) ∧ 0 ≤ w.i2c_dev_set_address adapter address) ∨
    (¬ (adapter ≥ 0 ∧ address > 0) ∧ 0 < w.mxt_scan)

/-- The calls made by the resolution of the register window. -/
def Resolved.out : Resolved → List Call
  | Resolved.window _ _ out => out
  | Resolved.no_such_object out => out
  | Resolved.not_enough_arguments out => out

/-- The calls made up to the end of the command switch. -/
def Flow.out : Flow → List Call
  | Flow.brk _ out => out
  | Flow.rtn _ out => out

/-! ## Case analysis on the option loop -/

/-- Case analysis on one pass through the option loop: whatever holds of the
body of each `case` of the `switch` (together with what the option requests and
whether it is `--help` or `--version`) holds of `getopt_case`. -/
theorem getopt_case_cases (st : Params) (r : GetoptResult)
    (P : Step → Option mxt_app_cmd → Bool → Bool → Prop)
    (long_t68_file : P
      (if st.cmd = CMD_NONE then
        Step.next { st with cmd := CMD_SERIAL_DATA, strbuf := strncpy_terminated (optarg_str r) } []
      else Step.exit (-1) [Call.print_usage])
      (some CMD_SERIAL_DATA) false false)
    (long_t68_datatype : P
      (Step.next { st with t68_datatype := to_uint8 (strtol (optarg_str r) 0) } [])
      none false false)
    (long_flash : P
      (if st.cmd = CMD_NONE then
        Step.next { st with cmd := CMD_FLASH, strbuf := strncpy_terminated (optarg_str r) } []
      else Step.exit (-1) [Call.print_usage])
      (some CMD_FLASH) false false)
    (long_backup : P
      (if st.cmd = CMD_NONE then
        Step.next { st with cmd := CMD_BACKUP } []
      else Step.exit (-1) [Call.print_usage])
      (some CMD_BACKUP) false false)
    (long_calibrate : P
      (if st.cmd = CMD_NONE then
        Step.next { st with cmd := CMD_CALIBRATE } []
      else Step.exit (-1) [Call.print_usage])
      (some CMD_CALIBRATE) false false)
    (long_debug_dump : P
      (if st.cmd = CMD_NONE then
        Step.next { st with cmd := CMD_DEBUG_DUMP, strbuf := strncpy_terminated (optarg_str r) } []
      else Step.exit (-1) [Call.print_usage])
      (some CMD_DEBUG_DUMP) false false)
    (long_reset : P
      (if st.cmd = CMD_NONE then
        Step.next { st with cmd := CMD_RESET } []
      else Step.exit (-1) [Call.print_usage])
      (some CMD_RESET) false false)
    (long_load : P
      (if st.cmd = CMD_NONE then
        Step.next { st with cmd := CMD_LOAD_CFG, strbuf := strncpy_terminated (optarg_str r) } []
      else Step.exit (-1) [Call.print_usage])
      (some CMD_LOAD_CFG) false false)
    (long_save : P
      (if st.cmd = CMD_NONE then
        Step.next { st with cmd := CMD_SAVE_CFG, strbuf := strncpy_terminated (optarg_str r) } []
      else Step.exit (-1) [Call.print_usage])
      (some CMD_SAVE_CFG) false false)
    (long_reset_bootloader : P
      (if st.cmd = CMD_NONE then
        Step.next { st with cmd := CMD_RESET_BOOTLOADER } []
      else Step.exit (-1) [Call.print_usage])
      (some CMD_RESET_BOOTLOADER) false false)
    (long_firmware_version : P
      (Step.next { st with strbuf2 := strncpy_plain (optarg_str r) } [])
      none false false)
    (long_frames : P
      (Step.next { st with t37_frames := to_uint16 (strtol (optarg_str r) 0) } [])
      none false false)
    (long_references : P
      (Step.next { st with t37_mode := t37_mode_t.REFS_MODE } [])
      none false false)
    (long_version : P
      (Step.exit 0 [Call.printf "mxt-app %s\n"])
      none false true)
    (long_unknown : P
      (Step.next st [Call.printf "Unknown option %s\n"])
      none false false)
    (short_a : P
      (match r.optarg with
      | some a => Step.next { st with i2c_address := to_int (strtol a 16) } []
      | none => Step.next st [])
      none false false)
    (short_d : P
      (match r.optarg with
      | some a => Step.next { st with i2c_adapter := to_int (strtol a 0) } []
      | none => Step.next st [])
      none false false)
    (short_C : P
      (if st.cmd = CMD_NONE then
        Step.next { st with cmd := CMD_BRIDGE_CLIENT, strbuf := strncpy_terminated (optarg_str r) } []
      else Step.exit (-1) [Call.print_usage])
      (some CMD_BRIDGE_CLIENT) false false)
    (short_g : P
      (if st.cmd = CMD_NONE then
        Step.next { st with cmd := CMD_GOLDEN_REFERENCES } []
      else Step.exit (-1) [Call.print_usage])
      (some CMD_GOLDEN_REFERENCES) false false)
    (short_h : P
      (Step.exit 0 [Call.print_usage])
      none true false)
    (short_f : P
      (Step.next { st with format := true } [])
      none false false)
    (short_I : P
      (match r.optarg with
      | some a => Step.next { st with instance_ := to_uint8 (strtol a 0) } []
      | none => Step.next st [])
      none false false)
    (short_n : P
      (match r.optarg with
      | some a => Step.next { st with count := to_uint8 (strtol a 0) } []
      | none => Step.next st [])
      none false false)
    (short_p : P
      (match r.optarg with
      | some a => Step.next { st with port := to_uint16 (strtol a 0) } []
      | none => Step.next st [])
      none false false)
    (short_r : P
      (match r.optarg with
      | some a => Step.next { st with address := to_uint16 (strtol a 0) } []
      | none => Step.next st [])
      none false false)
    (short_R : P
      (if st.cmd = CMD_NONE then
        Step.next { st with cmd := CMD_READ } []
      else Step.exit (-1) [Call.print_usage])
      (some CMD_READ) false false)
    (short_S : P
      (if st.cmd = CMD_NONE then
        Step.next { st with cmd := CMD_BRIDGE_SERVER } []
      else Step.exit (-1) [Call.print_usage])
      (some CMD_BRIDGE_SERVER) false false)
    (short_T : P
      (match r.optarg with
      | some a => Step.next { st with object_type := to_uint16 (strtol a 0) } []
      | none => Step.next st [])
      none false false)
    (short_t : P
      (if st.cmd = CMD_NONE then
        Step.next { st with cmd := CMD_TEST } []
      else Step.exit (-1) [Call.print_usage])
      (some CMD_TEST) false false)
    (short_v : P
      (match r.optarg with
      | some a =>
        Step.next { st with verbose := to_uint8 (strtol a 0) }
          [Call.mxt_set_verbose (to_uint8 (strtol a 0))]
      | none => Step.next st [])
      none false false)
    (short_W : P
      (if st.cmd = CMD_NONE then
        Step.next { st with cmd := CMD_WRITE } []
      else Step.exit (-1) [Call.print_usage])
      (some CMD_WRITE) false false)
    (short_default : P
      (Step.exit (-1) [Call.printf "\n\n", Call.print_usage])
      none false false) :
    P (getopt_case st r) (requested r) (is_help r) (is_version r) := by
  by_cases h0 : r.c = 0
  · by_cases n0 : long_option_name r.option_index = "t68-file"
    · simpa [getopt_case, requested, is_help, is_version, chr, h0, n0] using long_t68_file
    by_cases n1 : long_option_name r.option_index = "t68-datatype"
    · simpa [getopt_case, requested, is_help, is_version, chr, h0, n1] using long_t68_datatype
    by_cases n2 : long_option_name r.option_index = "flash"
    · simpa [getopt_case, requested, is_help, is_version, chr, h0, n2] using long_flash
    by_cases n3 : long_option_name r.option_index = "backup"
    · simpa [getopt_case, requested, is_help, is_version, chr, h0, n3] using long_backup
    by_cases n4 : long_option_name r.option_index = "calibrate"
    · simpa [getopt_case, requested, is_help, is_version, chr, h0, n4] using long_calibrate
    by_cases n5 : long_option_name r.option_index = "debug-dump"
    · simpa [getopt_case, requested, is_help, is_version, chr, h0, n5] using long_debug_dump
    by_cases n6 : long_option_name r.option_index = "reset"
    · simpa [getopt_case, requested, is_help, is_version, chr, h0, n6] using long_reset
    by_cases n7 : long_option_name r.option_index = "load"
    · simpa [getopt_case, requested, is_help, is_version, chr, h0, n7] using long_load
    by_cases n8 : long_option_name r.option_index = "save"
    · simpa [getopt_case, requested, is_help, is_version, chr, h0, n8] using long_save
    by_cases n9 : long_option_name r.option_index = "reset-bootloader"
    · simpa [getopt_case, requested, is_help, is_version, chr, h0, n9] using long_reset_bootloader
    by_cases n10 : long_option_name r.option_index = "firmware-version"
    · simpa [getopt_case, requested, is_help, is_version, chr, h0, n10] using long_firmware_version
    by_cases n11 : long_option_name r.option_index = "frames"
    · simpa [getopt_case, requested, is_help, is_version, chr, h0, n11] using long_frames
    by_cases n12 : long_option_name r.option_index = "references"
    · simpa [getopt_case, requested, is_help, is_version, chr, h0, n12] using long_references
    by_cases n13 : long_option_name r.option_index = "version"
    · simpa [getopt_case, requested, is_help, is_version, chr, h0, n13] using long_version
    simpa [getopt_case, requested, is_help, is_version, chr, h0, n0, n1, n2, n3, n4, n5, n6, n7, n8, n9, n10, n11, n12, n13] using long_unknown
  by_cases h1 : r.c = chr 'a'
  · simpa [getopt_case, requested, is_help, is_version, chr, h1] using short_a
  by_cases h2 : r.c = chr 'd'
  · simpa [getopt_case, requested, is_help, is_version, chr, h2] using short_d
  by_cases h3 : r.c = chr 'C'
  · simpa [getopt_case, requested, is_help, is_version, chr, h3] using short_C
  by_cases h4 : r.c = chr 'g'
  · simpa [getopt_case, requested, is_help, is_version, chr, h4] using short_g
  by_cases h5 : r.c = chr 'h'
  · simpa [getopt_case, requested, is_help, is_version, chr, h5] using short_h
  by_cases h6 : r.c = chr 'f'
  · simpa [getopt_case, requested, is_help, is_version, chr, h6] using short_f
  by_cases h7 : r.c = chr 'I'
  · simpa [getopt_case, requested, is_help, is_version, chr, h7] using short_I
  by_cases h8 : r.c = chr 'n'
  · simpa [getopt_case, requested, is_help, is_version, chr, h8] using short_n
  by_cases h9 : r.c = chr 'p'
  · simpa [getopt_case, requested, is_help, is_version, chr, h9] using short_p
  by_cases h10 : r.c = chr 'r'
  · simpa [getopt_case, requested, is_help, is_version, chr, h10] using short_r
  by_cases h11 : r.c = chr 'R'
  · simpa [getopt_case, requested, is_help, is_version, chr, h11] using short_R
  by_cases h12 : r.c = chr 'S'
  · simpa [getopt_case, requested, is_help, is_version, chr, h12] using short_S
  by_cases h13 : r.c = chr 'T'
  · simpa [getopt_case, requested, is_help, is_version, chr, h13] using short_T
  by_cases h14 : r.c = chr 't'
  · simpa [getopt_case, requested, is_help, is_version, chr, h14] using short_t
  by_cases h15 : r.c = chr 'v'
  · simpa [getopt_case, requested, is_help, is_version, chr, h15] using short_v
  by_cases h16 : r.c = chr 'W'
  · simpa [getopt_case, requested, is_help, is_version, chr, h16] using short_W
  simpa [getopt_case, requested, is_help, is_version, h0, h1, h2, h3, h4, h5, h6, h7, h8, h9, h10, h11, h12, h13, h14, h15, h16] using short_default

/-- A primary-command flag goes through the selector: it sets the command when
none is selected, and is a usage error otherwise. -/
theorem getopt_case_select (st : Params) (r : GetoptResult) (k : mxt_app_cmd)
    (hk : requested r = some k) :
    (st.cmd = CMD_NONE → ∃ st1, getopt_case st r = Step.next st1 [] ∧ st1.cmd = k) ∧
    (st.cmd ≠ CMD_NONE → getopt_case st r = Step.exit (-1) [Call.print_usage]) := by
  revert hk
  apply getopt_case_cases st r (fun s q _ _ => q = some k →
    (st.cmd = CMD_NONE → ∃ st1, s = Step.next st1 [] ∧ st1.cmd = k) ∧
    (st.cmd ≠ CMD_NONE → s = Step.exit (-1) [Call.print_usage]))
  all_goals intro hq
  all_goals first
    | (cases hq; done)
    | (cases hq; constructor <;> intro h <;> simp [h])

/-- An option that is not a primary-command flag never changes the command. -/
theorem getopt_case_modifier (st : Params) (r : GetoptResult) (hq : requested r = none)
    (st1 : Params) (out : List Call) (h : getopt_case st r = Step.next st1 out) :
    st1.cmd = st.cmd := by
  revert hq h
  apply getopt_case_cases st r (fun s q _ _ => q = none → s = Step.next st1 out → st1.cmd = st.cmd)
  all_goals intro hq h
  all_goals first
    | (cases hq; done)
    | (cases h <;> rfl)
    | (cases hopt : r.optarg <;> rw [hopt] at h <;> cases h <;> rfl)

/-- Every return from inside the option loop is either a usage error with
status -1, or status 0 after `--help` or `--version`. -/
theorem getopt_case_exit (st : Params) (r : GetoptResult) (code : Int) (out : List Call)
    (h : getopt_case st r = Step.exit code out) :
    (code = -1 ∧ Call.print_usage ∈ out) ∨
      (code = 0 ∧ (is_help r = true ∨ is_version r = true)) := by
  revert h
  apply getopt_case_cases st r (fun s _ hl v => s = Step.exit code out →
    (code = -1 ∧ Call.print_usage ∈ out) ∨ (code = 0 ∧ (hl = true ∨ v = true)))
  all_goals intro h
  all_goals first
    | (cases h <;> simp)
    | (split at h <;> cases h <;> simp)

/-- The options `--help` and `--version` return 0 at once. -/
theorem getopt_case_help_version (st : Params) (r : GetoptResult)
    (h : is_help r = true ∨ is_version r = true) :
    ∃ out, getopt_case st r = Step.exit 0 out := by
  revert h
  apply getopt_case_cases st r (fun s _ hl v => (hl = true ∨ v = true) → ∃ out, s = Step.exit 0 out)
  all_goals intro h
  all_goals first
    | (simp at h; done)
    | exact ⟨_, rfl⟩

/-- Nothing is executed by a pass through the option loop: its output holds
no device initialisation and no command call. -/
theorem getopt_case_quiet (st : Params) (r : GetoptResult) :
    (∀ st1 out, getopt_case st r = Step.next st1 out → nothing_executed out) ∧
    (∀ code out, getopt_case st r = Step.exit code out → nothing_executed out) := by
  apply getopt_case_cases st r (fun s _ _ _ =>
    (∀ st1 out, s = Step.next st1 out → nothing_executed out) ∧
    (∀ code out, s = Step.exit code out → nothing_executed out))
  all_goals constructor
  all_goals intro a out h
  all_goals first
    | (cases h <;> simp [nothing_executed, is_device_init, is_command_call])
    | (split at h <;> cases h <;> simp [nothing_executed, is_device_init, is_command_call])

/-- The option loop on an empty list of results. -/
theorem option_loop_nil (st : Params) : option_loop st [] = Step.next st [] := rfl

/-- The option loop when its first pass returns. -/
theorem option_loop_cons_exit (st : Params) (r : GetoptResult) (rs : List GetoptResult)
    (code : Int) (out : List Call) (h : getopt_case st r = Step.exit code out) :
    option_loop st (r :: rs) = Step.exit code out := by
  simp [option_loop, h]

/-- The option loop when its first pass goes on. -/
theorem option_loop_cons_next (st st1 : Params) (r : GetoptResult) (rs : List GetoptResult)
    (out : List Call) (h : getopt_case st r = Step.next st1 out) :
    option_loop st (r :: rs) =
      match option_loop st1 rs with
      | Step.next st2 out2 => Step.next st2 (out ++ out2)
      | Step.exit code out2 => Step.exit code (out ++ out2) := by
  simp [option_loop, h]

/-- Nothing is executed while the options are read. -/
theorem option_loop_quiet (opts : List GetoptResult) :
    ∀ st : Params,
      (∀ st1 out, option_loop st opts = Step.next st1 out → nothing_executed out) ∧
      (∀ code out, option_loop st opts = Step.exit code out → nothing_executed out) := by
  induction opts with
  | nil =>
    intro st
    constructor
    · intro st1 out h
      rw [option_loop_nil] at h
      cases h
      simp [nothing_executed]
    · intro code out h
      rw [option_loop_nil] at h
      cases h
  | cons r rs ih =>
    intro st
    cases hs : getopt_case st r with
    | exit code0 out0 =>
      rw [option_loop_cons_exit st r rs code0 out0 hs]
      constructor
      · intro st1 out h
        cases h
      · intro code out h
        cases h
        exact (getopt_case_quiet st r).2 _ _ hs
    | next st1 out1 =>
      have q1 := (getopt_case_quiet st r).1 _ _ hs
      rw [option_loop_cons_next st st1 r rs out1 hs]
      cases hl : option_loop st1 rs with
      | next st2 out2 =>
        have q2 := (ih st1).1 _ _ hl
        constructor
        · intro st3 out h
          cases h
          intro c hc
          rcases List.mem_append.1 hc with hc | hc
          · exact q1 c hc
          · exact q2 c hc
        · intro code out h
          cases h
      | exit code2 out2 =>
        have q2 := (ih st1).2 _ _ hl
        constructor
        · intro st3 out h
          cases h
        · intro code out h
          cases h
          intro c hc
          rcases List.mem_append.1 hc with hc | hc
          · exact q1 c hc
          · exact q2 c hc

/-- The option loop over a concatenation. -/
theorem option_loop_append (a b : List GetoptResult) :
    ∀ st : Params, option_loop st (a ++ b) =
      match option_loop st a with
      | Step.exit code out => Step.exit code out
      | Step.next st1 out1 =>
        match option_loop st1 b with
        | Step.next st2 out2 => Step.next st2 (out1 ++ out2)
        | Step.exit code out2 => Step.exit code (out1 ++ out2) := by
  induction a with
  | nil =>
    intro st
    simp only [List.nil_append, option_loop_nil]
    cases option_loop st b <;> simp
  | cons r rs ih =>
    intro st
    cases hs : getopt_case st r with
    | exit code0 out0 =>
      rw [List.cons_append, option_loop_cons_exit st r _ code0 out0 hs,
        option_loop_cons_exit st r _ code0 out0 hs]
    | next st1 out1 =>
      rw [List.cons_append, option_loop_cons_next st st1 r _ out1 hs,
        option_loop_cons_next st st1 r _ out1 hs, ih st1]
      cases hrs : option_loop st1 rs with
      | exit code2 out2 => rfl
      | next st2 out2 =>
        cases hb : option_loop st2 b with
        | exit code3 out3 => simp [hb, List.append_assoc]
        | next st3 out3 => simp [hb, List.append_assoc]

/-- Once a command is selected, the option loop never changes it. -/
theorem option_loop_cmd_fixed (opts : List GetoptResult) :
    ∀ (st st2 : Params) (out : List Call), st.cmd ≠ CMD_NONE →
      option_loop st opts = Step.next st2 out → st2.cmd = st.cmd := by
  induction opts with
  | nil =>
    intro st st2 out _ h
    rw [option_loop_nil] at h
    cases h
    rfl
  | cons r rs ih =>
    intro st st2 out hc h
    cases hs : getopt_case st r with
    | exit code0 out0 =>
      rw [option_loop_cons_exit st r rs code0 out0 hs] at h
      cases h
    | next st1 out1 =>
      rw [option_loop_cons_next st st1 r rs out1 hs] at h
      have h1 : st1.cmd = st.cmd := by
        cases hq : requested r with
        | none => exact getopt_case_modifier st r hq st1 out1 hs
        | some k =>
          have := (getopt_case_select st r k hq).2 hc
          rw [this] at hs
          cases hs
      cases hl : option_loop st1 rs with
      | exit code2 out2 =>
        rw [hl] at h
        cases h
      | next st3 out3 =>
        rw [hl] at h
        cases h
        rw [ih st1 st2 out3 (by rw [h1]; exact hc) hl, h1]

/-- Every return from inside the option loop is a usage error with status -1,
or status 0 after a `--help` or `--version` among the options. -/
theorem option_loop_exit (opts : List GetoptResult) :
    ∀ (st : Params) (code : Int) (out : List Call),
      option_loop st opts = Step.exit code out →
      (code = -1 ∧ Call.print_usage ∈ out) ∨
        (code = 0 ∧ ∃ r ∈ opts, is_help r = true ∨ is_version r = true) := by
  induction opts with
  | nil =>
    intro st code out h
    rw [option_loop_nil] at h
    cases h
  | cons r rs ih =>
    intro st code out h
    cases hs : getopt_case st r with
    | exit code0 out0 =>
      rw [option_loop_cons_exit st r rs code0 out0 hs] at h
      cases h
      rcases getopt_case_exit st r code out hs with h1 | h1
      · exact Or.inl h1
      · exact Or.inr ⟨h1.1, r, List.mem_cons_self _ _, h1.2⟩
    | next st1 out1 =>
      rw [option_loop_cons_next st st1 r rs out1 hs] at h
      cases hl : option_loop st1 rs with
      | next st3 out3 =>
        rw [hl] at h
        cases h
      | exit code2 out2 =>
        rw [hl] at h
        cases h
        rcases ih st1 code out2 hl with h1 | h1
        · exact Or.inl ⟨h1.1, List.mem_append_right _ h1.2⟩
        · obtain ⟨h0, r1, hr1, hv⟩ := h1
          exact Or.inr ⟨h0, r1, List.mem_cons_of_mem _ hr1, hv⟩

/-- The option loop over a concatenation whose first part runs to its end. -/
theorem option_loop_append_next (a b : List GetoptResult) (st s1 : Params) (o1 : List Call)
    (ha : option_loop st a = Step.next s1 o1) :
    option_loop st (a ++ b) =
      match option_loop s1 b with
      | Step.next st2 out2 => Step.next st2 (o1 ++ out2)
      | Step.exit code out2 => Step.exit code (o1 ++ out2) := by
  rw [option_loop_append, ha]

/-- No option requests the value `CMD_NONE`. -/
theorem requested_ne_none (r : GetoptResult) : requested r ≠ some CMD_NONE := by
  apply getopt_case_cases Params.init r (fun _ q _ _ => q ≠ some CMD_NONE)
  all_goals simp

/-- A step that goes on from a state with a selected command, or over a
primary-command flag, leaves a command selected. -/
theorem getopt_case_keeps_selected (st st1 : Params) (r : GetoptResult) (out : List Call)
    (hs : getopt_case st r = Step.next st1 out)
    (h : st.cmd ≠ CMD_NONE ∨ is_primary r = true) : st1.cmd ≠ CMD_NONE := by
  cases hq : requested r with
  | none =>
    rw [getopt_case_modifier st r hq st1 out hs]
    rcases h with h | h
    · exact h
    · simp [is_primary, hq] at h
  | some k =>
    by_cases hc : st.cmd = CMD_NONE
    · obtain ⟨st2, h2, h3⟩ := (getopt_case_select st r k hq).1 hc
      rw [h2] at hs
      cases hs
      rw [h3]
      intro hk
      rw [hk] at hq
      exact requested_ne_none r hq
    · have := (getopt_case_select st r k hq).2 hc
      rw [this] at hs
      cases hs

/-- A primary-command flag that comes after a selected command ends the option
loop with the usage error, when no `--help` or `--version` comes before it. -/
theorem option_loop_second_primary (e : GetoptResult) (post : List GetoptResult)
    (he : is_primary e = true) (pre : List GetoptResult) :
    ∀ st : Params, (st.cmd ≠ CMD_NONE ∨ ∃ r ∈ pre, is_primary r = true) →
      (∀ r ∈ pre, is_help r = false ∧ is_version r = false) →
      ∃ out, option_loop st (pre ++ e :: post) = Step.exit (-1) out ∧
        Call.print_usage ∈ out := by
  induction pre with
  | nil =>
    intro st h _
    have hc : st.cmd ≠ CMD_NONE := by
      rcases h with h | ⟨r, hr, _⟩
      · exact h
      · cases hr
    cases hq : requested e with
    | none => simp [is_primary, hq] at he
    | some k =>
      refine ⟨[Call.print_usage], ?_, by simp⟩
      exact option_loop_cons_exit st e post _ _ ((getopt_case_select st e k hq).2 hc)
  | cons r rs ih =>
    intro st h hv
    cases hs : getopt_case st r with
    | exit code0 out0 =>
      rw [List.cons_append, option_loop_cons_exit st r _ code0 out0 hs]
      rcases getopt_case_exit st r code0 out0 hs with h1 | h1
      · obtain ⟨h2, h3⟩ := h1
        subst h2
        exact ⟨out0, rfl, h3⟩
      · have := hv r (List.mem_cons_self _ _)
        rcases h1.2 with h2 | h2
        · rw [this.1] at h2
          cases h2
        · rw [this.2] at h2
          cases h2
    | next st1 out1 =>
      have hsel : st1.cmd ≠ CMD_NONE ∨ ∃ r1 ∈ rs, is_primary r1 = true := by
        rcases h with h | ⟨r1, hr1, hp⟩
        · exact Or.inl (getopt_case_keeps_selected st st1 r out1 hs (Or.inl h))
        · rcases List.mem_cons.1 hr1 with h2 | h2
          · subst h2
            exact Or.inl (getopt_case_keeps_selected st st1 r1 out1 hs (Or.inr hp))
          · exact Or.inr ⟨r1, h2, hp⟩
      obtain ⟨out2, h2, h3⟩ := ih st1 hsel (fun r1 hr1 => hv r1 (List.mem_cons_of_mem _ hr1))
      refine ⟨out1 ++ out2, ?_, List.mem_append_right _ h3⟩
      rw [List.cons_append, option_loop_cons_next st st1 r _ out1 hs, h2]

/-- The option loop returns from inside when a second primary-command flag is
among the options. -/
theorem option_loop_two_primary (opts : List GetoptResult) :
    ∀ st : Params,
      ((st.cmd ≠ CMD_NONE ∧ 1 ≤ opts.countP is_primary) ∨ 2 ≤ opts.countP is_primary) →
      ∃ code out, option_loop st opts = Step.exit code out := by
  induction opts with
  | nil =>
    intro st h
    simp at h
  | cons r rs ih =>
    intro st h
    cases hs : getopt_case st r with
    | exit code0 out0 => exact ⟨code0, out0, option_loop_cons_exit st r rs code0 out0 hs⟩
    | next st1 out1 =>
      have hrest : (st1.cmd ≠ CMD_NONE ∧ 1 ≤ rs.countP is_primary) ∨
          2 ≤ rs.countP is_primary := by
        by_cases hp : is_primary r = true
        · have h1 := getopt_case_keeps_selected st st1 r out1 hs (Or.inr hp)
          rw [List.countP_cons_of_pos _ _ hp] at h
          by_cases hc : st.cmd = CMD_NONE
          · rcases h with h | h
            · exact absurd hc h.1
            · exact Or.inl ⟨h1, by omega⟩
          · cases hq : requested r with
            | none => simp [is_primary, hq] at hp
            | some k =>
              have := (getopt_case_select st r k hq).2 hc
              rw [this] at hs
              cases hs
        · rw [List.countP_cons_of_neg _ _ hp] at h
          rcases h with h | h
          · exact Or.inl ⟨getopt_case_keeps_selected st st1 r out1 hs (Or.inl h.1), h.2⟩
          · exact Or.inr h
      obtain ⟨code, out, h2⟩ := ih st1 hrest
      exact ⟨code, out1 ++ out, by rw [option_loop_cons_next st st1 r rs out1 hs, h2]⟩

/-- The option loop never gets past `--help` or `--version`. -/
theorem option_loop_stops_at (v : GetoptResult) (hv : is_help v = true ∨ is_version v = true)
    (pre post : List GetoptResult) (st : Params) :
    ∃ code out, option_loop st (pre ++ v :: post) = Step.exit code out := by
  cases h1 : option_loop st pre with
  | exit code out => exact ⟨code, out, by rw [option_loop_append, h1]⟩
  | next st1 out1 =>
    obtain ⟨out, h2⟩ := getopt_case_help_version st1 v hv
    exact ⟨0, out1 ++ out, by
      rw [option_loop_append_next pre (v :: post) st st1 out1 h1,
        option_loop_cons_exit st1 v post 0 out h2]⟩

/-- What `main` returns when the option loop returns. -/
theorem main_of_exit (w : World) (opts : List GetoptResult) (args : List String)
    (code : Int) (out : List Call) (h : option_loop Params.init opts = Step.exit code out) :
    main w opts args = ⟨code, out⟩ := by
  simp [main, h]

/-- What `main` returns when the option loop runs to its end. -/
theorem main_of_next (w : World) (opts : List GetoptResult) (args : List String)
    (st : Params) (out : List Call) (h : option_loop Params.init opts = Step.next st out) :
    main w opts args =
      ⟨(after_options w st args).ret, out ++ (after_options w st args).trace⟩ := by
  simp [main, h]

/-! ## C1: two or more primary-command flags -/

/-- C1, as stated, fails: the argument vector `-h -R -W` holds two
primary-command flags, yet `main` prints the usage and returns 0, not a
non-zero status. -/
theorem C1_counterexample_help_first :
    2 ≤ List.countP is_primary
        [opt_short 'h' none, opt_short 'R' none, opt_short 'W' none] ∧
      main sampleWorld [opt_short 'h' none, opt_short 'R' none, opt_short 'W' none] [] =
        ⟨0, [Call.print_usage]⟩ := by
  constructor
  · decide
  · decide

/-- C1, amended: when the options hold two or more primary-command flags,
`main` returns from inside the option loop and nothing is executed (no device
initialisation, no command call); the status is -1 with the usage printed, or
0 with a `--help` or `--version` among the options; it is -1 with the usage
printed whenever no `--help` or `--version` comes before the second
primary-command flag; and it is 0 whenever the parsing reaches a `--help` or
`--version`, that is, when every option before it is accepted. -/
theorem C1_two_primary_flags_never_execute (w : World) (opts : List GetoptResult)
    (args : List String) (h : 2 ≤ opts.countP is_primary) :
    nothing_executed (main w opts args).trace ∧
    (((main w opts args).ret = -1 ∧ Call.print_usage ∈ (main w opts args).trace) ∨
      ((main w opts args).ret = 0 ∧ ∃ r ∈ opts, is_help r = true ∨ is_version r = true)) ∧
    (∀ pre e post, opts = pre ++ e :: post → is_primary e = true →
      (∃ r ∈ pre, is_primary r = true) →
      (∀ r ∈ pre, is_help r = false ∧ is_version r = false) →
      (main w opts args).ret = -1 ∧ Call.print_usage ∈ (main w opts args).trace) ∧
    (∀ pre v post s o, opts = pre ++ v :: post →
      (is_help v = true ∨ is_version v = true) →
      option_loop Params.init pre = Step.next s o →
      (main w opts args).ret = 0) := by
  obtain ⟨code, out, hx⟩ := option_loop_two_primary opts Params.init (Or.inr h)
  rw [main_of_exit w opts args code out hx]
  refine ⟨(option_loop_quiet opts Params.init).2 code out hx,
    option_loop_exit opts Params.init code out hx, ?_, ?_⟩
  · intro pre e post hsplit he hpre hnv
    obtain ⟨out2, h2, h3⟩ :=
      option_loop_second_primary e post he pre Params.init (Or.inr hpre) hnv
    rw [hsplit, h2] at hx
    cases hx
    exact ⟨rfl, h3⟩
  · intro pre v post s o hsplit hv hpre
    obtain ⟨out2, h2⟩ := getopt_case_help_version s v hv
    rw [hsplit, option_loop_append_next pre (v :: post) _ s o hpre,
      option_loop_cons_exit s v post 0 out2 h2] at hx
    cases hx
    rfl

/-- C1, amended, at the argument vector `-R -W` (the usage error with status
-1) and at `-R -h -W` (status 0 at `-h`, which the parsing reaches). -/
theorem C1_two_primary_flags_witness :
    2 ≤ List.countP is_primary [opt_short 'R' none, opt_short 'W' none] ∧
      ((main sampleWorld [opt_short 'R' none, opt_short 'W' none] []).ret = -1 ∧
        Call.print_usage ∈
          (main sampleWorld [opt_short 'R' none, opt_short 'W' none] []).trace) ∧
      (main sampleWorld [opt_short 'R' none, opt_short 'h' none, opt_short 'W' none]
        []).ret = 0 :=
  ⟨by decide,
    (C1_two_primary_flags_never_execute sampleWorld
      [opt_short 'R' none, opt_short 'W' none] [] (by decide)).2.2.1
      [opt_short 'R' none] (opt_short 'W' none) [] rfl (by decide)
      ⟨opt_short 'R' none, by simp, by decide⟩
      (by intro r hr; rw [List.mem_singleton.1 hr]; decide),
    (C1_two_primary_flags_never_execute sampleWorld
      [opt_short 'R' none, opt_short 'h' none, opt_short 'W' none] [] (by decide)).2.2.2
      [opt_short 'R' none] (opt_short 'h' none) [opt_short 'W' none]
      { Params.init with cmd := CMD_READ } [] rfl (Or.inl (by decide)) (by decide)⟩

/-! ## C2: the command selector is single-assignment -/

/-- C2: a command-selecting option processed while the command is `CMD_NONE`
sets the command to exactly the requested one, as `select` says; processed
while a command is selected it ends the parsing with the usage message and
status -1; an option that selects no command never changes the command; so
once a command is selected the option loop leaves it unchanged, and `main`
returns -1 with the usage at a second command-selecting option. -/
theorem C2_command_selector_single_assignment :
    (∀ (st : Params) (r : GetoptResult) (k : mxt_app_cmd), requested r = some k →
      match select st.cmd k with
      | some c => ∃ st1, getopt_case st r = Step.next st1 [] ∧ st1.cmd = c
      | none => getopt_case st r = Step.exit (-1) [Call.print_usage]) ∧
    (∀ (st st1 : Params) (r : GetoptResult) (out : List Call), requested r = none →
      getopt_case st r = Step.next st1 out → st1.cmd = st.cmd) ∧
    (∀ (a b : List GetoptResult) (s1 s2 : Params) (o1 o2 : List Call),
      option_loop Params.init a = Step.next s1 o1 → s1.cmd ≠ CMD_NONE →
      option_loop Params.init (a ++ b) = Step.next s2 o2 → s2.cmd = s1.cmd) ∧
    (∀ (w : World) (a b : List GetoptResult) (r : GetoptResult) (k : mxt_app_cmd)
      (args : List String) (s1 : Params) (o1 : List Call),
      option_loop Params.init a = Step.next s1 o1 → s1.cmd ≠ CMD_NONE →
      requested r = some k →
      main w (a ++ r :: b) args = ⟨-1, o1 ++ [Call.print_usage]⟩) := by
  refine ⟨?_, ?_, ?_, ?_⟩
  · intro st r k hk
    by_cases hc : st.cmd = CMD_NONE
    · simpa [select, hc] using (getopt_case_select st r k hk).1 hc
    · simpa [select, hc] using (getopt_case_select st r k hk).2 hc
  · intro st st1 r out hq hs
    exact getopt_case_modifier st r hq st1 out hs
  · intro a b s1 s2 o1 o2 ha hc hab
    rw [option_loop_append_next a b _ s1 o1 ha] at hab
    cases hb : option_loop s1 b with
    | exit code out =>
      rw [hb] at hab
      cases hab
    | next s3 o3 =>
      rw [hb] at hab
      cases hab
      exact option_loop_cmd_fixed b s1 s2 o3 hc hb
  · intro w a b r k args s1 o1 ha hc hk
    apply main_of_exit
    rw [option_loop_append_next a (r :: b) _ s1 o1 ha,
      option_loop_cons_exit s1 r b _ _ ((getopt_case_select s1 r k hk).2 hc)]

/-- C2 at the options `-R -n 4 -W`: `-R` selects `CMD_READ` from `CMD_NONE`,
`-n 4` leaves it, and `-W` is the usage error. -/
theorem C2_command_selector_witness :
    (∃ st1, getopt_case Params.init (opt_short 'R' none) = Step.next st1 [] ∧
      st1.cmd = CMD_READ) ∧
    main sampleWorld ([opt_short 'R' none, opt_short 'n' (some "4")] ++
      opt_short 'W' none :: []) [] = ⟨-1, [] ++ [Call.print_usage]⟩ :=
  ⟨C2_command_selector_single_assignment.1 Params.init (opt_short 'R' none) CMD_READ
      (by decide),
    C2_command_selector_single_assignment.2.2.2 sampleWorld
      [opt_short 'R' none, opt_short 'n' (some "4")] [] (opt_short 'W' none) CMD_WRITE []
      { Params.init with cmd := CMD_READ, count := 4 } [] (by decide) (by decide) (by decide)⟩

/-! ## After the option loop -/

/-- The status of `mxt_init_chip` is 0 or -1. -/
theorem mxt_init_chip_ret (w : World) (adapter address : Int) :
    (mxt_init_chip w adapter address).1 = 0 ∨ (mxt_init_chip w adapter address).1 = -1 := by
  unfold mxt_init_chip
  split_ifs <;> simp

/-- The calls of `mxt_init_chip` are device initialisation, not command calls. -/
theorem mxt_init_chip_no_command (w : World) (adapter address : Int) :
    ∀ c ∈ (mxt_init_chip w adapter address).2, is_command_call c = false := by
  unfold mxt_init_chip
  split_ifs <;> simp [is_command_call]

/-- The command calls in a trace in which nothing is executed. -/
theorem filter_command_of_quiet (t : List Call) (h : nothing_executed t) :
    t.filter is_command_call = [] := by
  rw [List.filter_eq_nil_iff]
  intro c hc
  simp [(h c hc).2]

/-- The command calls among calls that are not command calls. -/
theorem filter_command_of_none (t : List Call) (h : ∀ c ∈ t, is_command_call c = false) :
    t.filter is_command_call = [] := by
  rw [List.filter_eq_nil_iff]
  intro c hc
  simp [h c hc]

/-- After the option loop, a command other than Flash, device initialisation
failed: `main` returns what `mxt_init_chip` returned. -/
theorem after_options_init_failed (w : World) (st : Params) (args : List String)
    (hc : st.cmd ≠ CMD_FLASH) (hi : (mxt_init_chip w st.i2c_adapter st.i2c_address).1 < 0) :
    after_options w st args =
      ⟨(mxt_init_chip w st.i2c_adapter st.i2c_address).1,
       (mxt_init_chip w st.i2c_adapter st.i2c_address).2⟩ := by
  simp [after_options, hc, hi]

/-- After the option loop, a command other than Flash, device initialisation
succeeded: the command runs after it. -/
theorem after_options_init_ok (w : World) (st : Params) (args : List String)
    (hc : st.cmd ≠ CMD_FLASH) (hi : ¬ (mxt_init_chip w st.i2c_adapter st.i2c_address).1 < 0) :
    after_options w st args =
      ⟨(run_command w st args).ret,
       (mxt_init_chip w st.i2c_adapter st.i2c_address).2 ++ [Call.mxt_set_debug true]
         ++ (run_command w st args).trace⟩ := by
  simp [after_options, hc, hi]

/-- After the option loop, the Flash command: no device initialisation. -/
theorem after_options_flash (w : World) (st : Params) (args : List String)
    (hc : st.cmd = CMD_FLASH) :
    after_options w st args =
      ⟨w.mxt_flash_firmware st.strbuf st.strbuf2 st.i2c_adapter st.i2c_address,
       [Call.mxt_flash_firmware st.strbuf st.strbuf2 st.i2c_adapter st.i2c_address,
        Call.mxt_set_debug false, Call.mxt_release]⟩ := by
  simp [after_options, hc, run_command, command_switch]

/-- The `LoadConfig` command: status and trace of the command switch with the
teardown. -/
theorem run_command_load_cfg (w : World) (st : Params) (args : List String)
    (hc : st.cmd = CMD_LOAD_CFG) :
    run_command w st args =
      ⟨(load_cfg w st.strbuf).1,
       (load_cfg w st.strbuf).2 ++ [Call.mxt_set_debug false, Call.mxt_release]⟩ := by
  simp [run_command, command_switch, hc]

/-! ## C3: the LoadConfig chain -/

/-- C3: for the LoadConfig command (device initialisation done), whatever the
three collaborators return, the command calls made are exactly the first part
of [load configuration file, backup configuration, reset device] up to and
including the first step that fails: load alone when load fails, load and
backup when backup fails, all three otherwise; and the status of `main` is the
negative result of the failing step, or the result of the reset (which is not
negative when all three succeed). -/
theorem C3_load_config_fail_fast (w : World) (opts : List GetoptResult) (args : List String)
    (st : Params) (out : List Call)
    (hl : option_loop Params.init opts = Step.next st out)
    (hc : st.cmd = CMD_LOAD_CFG)
    (hi : ¬ (mxt_init_chip w st.i2c_adapter st.i2c_address).1 < 0) :
    (w.mxt_load_config_file st.strbuf < 0 →
      (main w opts args).ret = w.mxt_load_config_file st.strbuf ∧
      (main w opts args).ret < 0 ∧
      (main w opts args).trace.filter is_command_call =
        [Call.mxt_load_config_file st.strbuf] ∧
      (main w opts args).trace.count Call.mxt_backup_config = 0 ∧
      (main w opts args).trace.count (Call.mxt_reset_chip false) = 0) ∧
    (¬ w.mxt_load_config_file st.strbuf < 0 → w.mxt_backup_config < 0 →
      (main w opts args).ret = w.mxt_backup_config ∧
      (main w opts args).ret < 0 ∧
      (main w opts args).trace.filter is_command_call =
        [Call.mxt_load_config_file st.strbuf, Call.mxt_backup_config] ∧
      (main w opts args).trace.count (Call.mxt_reset_chip false) = 0) ∧
    (¬ w.mxt_load_config_file st.strbuf < 0 → ¬ w.mxt_backup_config < 0 →
      (main w opts args).ret = w.mxt_reset_chip false ∧
      (main w opts args).trace.filter is_command_call =
        [Call.mxt_load_config_file st.strbuf, Call.mxt_backup_config,
         Call.mxt_reset_chip false]) := by
  have hf : st.cmd ≠ CMD_FLASH := by rw [hc]; decide
  have hq := filter_command_of_quiet out ((option_loop_quiet opts Params.init).1 st out hl)
  have hn := filter_command_of_none _ (mxt_init_chip_no_command w st.i2c_adapter st.i2c_address)
  have hq1 : ∀ c, is_command_call c = true → out.count c = 0 := by
    intro c hcc
    rw [List.count_eq_zero]
    intro hm
    have := ((option_loop_quiet opts Params.init).1 st out hl c hm).2
    rw [this] at hcc
    cases hcc
  have hn1 : ∀ c, is_command_call c = true →
      (mxt_init_chip w st.i2c_adapter st.i2c_address).2.count c = 0 := by
    intro c hcc
    rw [List.count_eq_zero]
    intro hm
    have := mxt_init_chip_no_command w st.i2c_adapter st.i2c_address c hm
    rw [this] at hcc
    cases hcc
  rw [main_of_next w opts args st out hl, after_options_init_ok w st args hf hi,
    run_command_load_cfg w st args hc]
  refine ⟨?_, ?_, ?_⟩
  · intro h1
    simp [load_cfg, h1, List.filter_append, hq, hn, is_command_call, List.count_append,
      hq1, hn1, List.count_cons]
  · intro h1 h2
    simp [load_cfg, h1, h2, List.filter_append, hq, hn, is_command_call, List.count_append,
      hq1, hn1, List.count_cons]
  · intro h1 h2
    simp [load_cfg, h1, h2, List.filter_append, hq, hn, is_command_call]

/-- C3 at `--load cfg.xcfg` on the sample device, where all three steps
succeed: load, backup and reset are called in this order and the status is 0. -/
theorem C3_load_config_witness :
    (main sampleWorld [opt_long 14 (some "cfg.xcfg")] []).ret = 0 ∧
      (main sampleWorld [opt_long 14 (some "cfg.xcfg")] []).trace.filter is_command_call =
        [Call.mxt_load_config_file "cfg.xcfg", Call.mxt_backup_config,
         Call.mxt_reset_chip false] :=
  (C3_load_config_fail_fast sampleWorld [opt_long 14 (some "cfg.xcfg")] []
    { Params.init with cmd := CMD_LOAD_CFG, strbuf := "cfg.xcfg" } []
    (by decide) rfl (by decide)).2.2 (by decide) (by decide)

/-! ## The write command -/

/-- The hex conversion and the register write are command calls. -/
theorem is_command_of_hex_or_write (c : Call) (h : is_command_call c = false) :
    is_hex_or_write c = false := by
  cases c <;> simp [is_hex_or_write, is_command_call] at h ⊢

/-- The write command: the command switch with the teardown, in terms of the
resolution of the register window and of the data part. -/
theorem run_command_write (w : World) (st : Params) (args : List String)
    (hc : st.cmd = CMD_WRITE) :
    run_command w st args =
      match write_resolve w st.object_type st.instance_ st.address st.count with
      | Resolved.no_such_object out =>
        ⟨-1, out ++ [Call.mxt_set_debug false, Call.mxt_release]⟩
      | Resolved.not_enough_arguments out => ⟨-1, out⟩
      | Resolved.window address count out =>
        match write_data w address count args with
        | Flow.brk ret out2 =>
          ⟨ret, out ++ out2 ++ [Call.mxt_set_debug false, Call.mxt_release]⟩
        | Flow.rtn ret out2 => ⟨ret, out ++ out2⟩ := by
  simp only [run_command, command_switch, hc]
  cases write_resolve w st.object_type st.instance_ st.address st.count with
  | no_such_object out => rfl
  | not_enough_arguments out => rfl
  | window address n out => cases hd : write_data w address n args <;> simp [hd]

/-- Resolution of the register window for an object that is present. -/
theorem write_resolve_present (w : World) (t i o c : Nat) (ht : t > 0)
    (hp : object_present w t i) :
    write_resolve w t i o c =
      Resolved.window ((w.get_object_address t i % 65536 + o) % 65536)
        (if c = 0 then w.get_object_size t % 256 else c)
        (if c = 0 then [Call.get_object_address t i, Call.get_object_size t]
          else [Call.get_object_address t i]) := by
  unfold object_present at hp
  unfold write_resolve
  rw [if_pos ht, if_neg hp]
  by_cases hc : c = 0
  · rw [if_pos hc, if_pos hc, if_pos hc]
  · rw [if_neg hc, if_neg hc, if_neg hc]

/-! ## C4: the resolved register window -/

/-- C4, as stated, fails: on the sample device the object (7, 0) is present
with base 100 and size 8; with the offset 65535 (`-W -T 7 -r 65535 00`) the
resolved address is 99, not 100 + 65535: the sum is reduced to 16 bits. -/
theorem C4_counterexample_address_wraps :
    sampleWorld.get_object_address 7 0 = 100 ∧ sampleWorld.get_object_size 7 = 8 ∧
      sampleWorld.get_object_address 7 0 % 65536 ≠ sampleWorld.OBJECT_NOT_FOUND ∧
      write_resolve sampleWorld 7 0 65535 0 =
        Resolved.window 99 8 [Call.get_object_address 7 0, Call.get_object_size 7] ∧
      (99 : Nat) ≠ 100 + 65535 ∧
      main sampleWorld
          [opt_short 'W' none, opt_short 'T' (some "7"), opt_short 'r' (some "65535")]
          ["00"] =
        ⟨0, [Call.mxt_scan, Call.mxt_get_info, Call.mxt_set_debug true,
             Call.get_object_address 7 0, Call.get_object_size 7,
             Call.mxt_convert_hex "00" 8 1024, Call.mxt_write_register [0] 99 1,
             Call.mxt_set_debug false, Call.mxt_release]⟩ := by
  refine ⟨by decide, by decide, by decide, by decide, by decide, by decide⟩

/-- C4, amended: in the write command, for an object type > 0 whose (object
type, instance) pair is present in the directory with a 16 bit base address
`b` and an 8 bit declared size `s`, and for every offset `o` and count `c`,
the resolved window has address `(b + o) mod 2^16`, which is `b + o` whenever
the sum fits in 16 bits, and length `c` if `c` is not zero, else `s`.  With
`b = 100`, `s = 8`, `o = 2`: `c = 0` gives (102, 8) and `c = 3` gives (102, 3). -/
theorem C4_write_window (w : World) (t i o c b s : Nat) (ht : t > 0)
    (hb : w.get_object_address t i = b) (hb16 : b < 65536)
    (hp : object_present w t i)
    (hs : w.get_object_size t = s) (hs8 : s < 256) :
    ∃ out,
      write_resolve w t i o c =
        Resolved.window ((b + o) % 65536) (if c ≠ 0 then c else s) out ∧
      (b + o < 65536 →
        write_resolve w t i o c = Resolved.window (b + o) (if c ≠ 0 then c else s) out) ∧
      (b = 100 → s = 8 → o = 2 →
        (c = 0 → write_resolve w t i o c = Resolved.window 102 8 out) ∧
        (c = 3 → write_resolve w t i o c = Resolved.window 102 3 out)) := by
  have key : write_resolve w t i o c =
      Resolved.window ((b + o) % 65536) (if c ≠ 0 then c else s)
        (if c = 0 then [Call.get_object_address t i, Call.get_object_size t]
          else [Call.get_object_address t i]) := by
    rw [write_resolve_present w t i o c ht hp, hb, hs, Nat.mod_eq_of_lt hb16,
      Nat.mod_eq_of_lt hs8]
    by_cases hc : c = 0 <;> simp [hc]
  refine ⟨_, key, ?_, ?_⟩
  · intro hlt
    rw [key, Nat.mod_eq_of_lt hlt]
  · intro h1 h2 h3
    subst h1 h2 h3
    constructor
    · intro h4
      rw [key]
      subst h4
      rfl
    · intro h4
      rw [key]
      subst h4
      rfl

/-- C4, amended, on the sample device (base 100, size 8) at offset 2: count 0
resolves to (102, 8) and count 3 to (102, 3). -/
theorem C4_write_window_witness :
    (∃ out, write_resolve sampleWorld 7 0 2 0 = Resolved.window 102 8 out) ∧
      (∃ out, write_resolve sampleWorld 7 0 2 3 = Resolved.window 102 3 out) :=
  ⟨(C4_write_window sampleWorld 7 0 2 0 100 8 (by decide) (by decide) (by decide)
      (by unfold object_present; decide) (by decide) (by decide)).imp
      (fun _ h => (h.2.2 rfl rfl rfl).1 rfl),
   (C4_write_window sampleWorld 7 0 2 3 100 8 (by decide) (by decide) (by decide)
      (by unfold object_present; decide) (by decide) (by decide)).imp
      (fun _ h => (h.2.2 rfl rfl rfl).2 rfl)⟩

/-! ## C5: the two failures of the resolution -/

/-- C5: in the write command (device initialisation done) the resolution of
the register window fails in exactly two cases: with object type 0 and count
0, "Not enough arguments!"; with an object type > 0 that the directory does
not hold, "No such object", with no address computed.  In both cases `main`
returns -1 and neither the hex conversion nor the register write is called.
In every other case the resolution yields a window. -/
theorem C5_write_resolution_failures (w : World) (opts : List GetoptResult)
    (args : List String) (st : Params) (out : List Call)
    (hl : option_loop Params.init opts = Step.next st out)
    (hc : st.cmd = CMD_WRITE)
    (hi : ¬ (mxt_init_chip w st.i2c_adapter st.i2c_address).1 < 0) :
    (st.object_type = 0 ∧ st.count = 0 →
      write_resolve w st.object_type st.instance_ st.address st.count =
        Resolved.not_enough_arguments [Call.printf "Not enough arguments!\n"] ∧
      main w opts args =
        ⟨-1, out ++ ((mxt_init_chip w st.i2c_adapter st.i2c_address).2 ++
          [Call.mxt_set_debug true] ++ [Call.printf "Not enough arguments!\n"])⟩ ∧
      ∀ x ∈ (main w opts args).trace, is_hex_or_write x = false) ∧
    (st.object_type > 0 ∧ ¬ object_present w st.object_type st.instance_ →
      write_resolve w st.object_type st.instance_ st.address st.count =
        Resolved.no_such_object
          [Call.get_object_address st.object_type st.instance_,
           Call.printf "No such object\n"] ∧
      main w opts args =
        ⟨-1, out ++ ((mxt_init_chip w st.i2c_adapter st.i2c_address).2 ++
          [Call.mxt_set_debug true] ++
          ([Call.get_object_address st.object_type st.instance_,
            Call.printf "No such object\n"] ++
           [Call.mxt_set_debug false, Call.mxt_release]))⟩ ∧
      ∀ x ∈ (main w opts args).trace, is_hex_or_write x = false) ∧
    (¬ (st.object_type = 0 ∧ st.count = 0) →
      ¬ (st.object_type > 0 ∧ ¬ object_present w st.object_type st.instance_) →
      ∃ address count out1,
        write_resolve w st.object_type st.instance_ st.address st.count =
          Resolved.window address count out1) := by
  have hf : st.cmd ≠ CMD_FLASH := by rw [hc]; decide
  have hq : ∀ x ∈ out, is_hex_or_write x = false := fun x hx =>
    is_command_of_hex_or_write x ((option_loop_quiet opts Params.init).1 st out hl x hx).2
  have hn : ∀ x ∈ (mxt_init_chip w st.i2c_adapter st.i2c_address).2,
      is_hex_or_write x = false := fun x hx =>
    is_command_of_hex_or_write x (mxt_init_chip_no_command w _ _ x hx)
  rw [main_of_next w opts args st out hl, after_options_init_ok w st args hf hi,
    run_command_write w st args hc]
  refine ⟨?_, ?_, ?_⟩
  · rintro ⟨h1, h2⟩
    have hr : write_resolve w st.object_type st.instance_ st.address st.count =
        Resolved.not_enough_arguments [Call.printf "Not enough arguments!\n"] := by
      simp [write_resolve, h1, h2]
    rw [hr]
    refine ⟨rfl, rfl, ?_⟩
    intro x hx
    rcases List.mem_append.1 hx with hx | hx
    · exact hq x hx
    rcases List.mem_append.1 hx with hx | hx
    · rcases List.mem_append.1 hx with hx | hx
      · exact hn x hx
      · rw [List.mem_singleton.1 hx]; rfl
    · rw [List.mem_singleton.1 hx]; rfl
  · rintro ⟨h1, h2⟩
    have hr : write_resolve w st.object_type st.instance_ st.address st.count =
        Resolved.no_such_object
          [Call.get_object_address st.object_type st.instance_,
           Call.printf "No such object\n"] := by
      unfold object_present at h2
      rw [not_not] at h2
      simp [write_resolve, h1, h2]
    rw [hr]
    refine ⟨rfl, rfl, ?_⟩
    intro x hx
    rcases List.mem_append.1 hx with hx | hx
    · exact hq x hx
    rcases List.mem_append.1 hx with hx | hx
    · rcases List.mem_append.1 hx with hx | hx
      · exact hn x hx
      · rw [List.mem_singleton.1 hx]; rfl
    · simp only [List.cons_append, List.nil_append, List.mem_cons, List.not_mem_nil,
        or_false] at hx
      rcases hx with rfl | rfl | rfl | rfl <;> rfl
  · intro h1 h2
    by_cases ht : st.object_type > 0
    · have hp : object_present w st.object_type st.instance_ := by
        by_contra hp
        exact h2 ⟨ht, hp⟩
      exact ⟨_, _, _, write_resolve_present w _ _ _ _ ht hp⟩
    · have ht0 : st.object_type = 0 := by omega
      have hc0 : st.count ≠ 0 := fun h => h1 ⟨ht0, h⟩
      exact ⟨st.address, st.count, [], by simp [write_resolve, ht0, hc0]⟩

/-- C5 at `-W 00` on the sample device (no object type, no count): the
resolution fails with "Not enough arguments!", status -1, and no hex
conversion or register write is made. -/
theorem C5_write_resolution_witness :
    (main sampleWorld [opt_short 'W' none] ["00"]).ret = -1 ∧
      ∀ x ∈ (main sampleWorld [opt_short 'W' none] ["00"]).trace,
        is_hex_or_write x = false :=
  have h := (C5_write_resolution_failures sampleWorld [opt_short 'W' none] ["00"]
    { Params.init with cmd := CMD_WRITE } [] (by decide) rfl (by decide)).1
    ⟨rfl, rfl⟩
  ⟨by rw [h.2.1], h.2.2⟩

/-! ## C6: the bound of the hex decoder -/

/-- The conversion to `uint8_t` yields a value below 256. -/
theorem to_uint8_lt (x : Int) : to_uint8 x < 256 := by
  unfold to_uint8
  have h := Int.emod_lt_of_pos x (show (0 : Int) < 256 by decide)
  have h0 := Int.emod_nonneg x (show (256 : Int) ≠ 0 by decide)
  omega

/-- One pass through the option loop keeps `count` within 8 bits. -/
theorem getopt_case_count_lt (st : Params) (r : GetoptResult) (hcount : st.count < 256) :
    ∀ st1 out, getopt_case st r = Step.next st1 out → st1.count < 256 := by
  apply getopt_case_cases st r (fun s _ _ _ =>
    ∀ st1 out, s = Step.next st1 out → st1.count < 256)
  all_goals intro st1 out h
  all_goals first
    | (cases h <;> exact hcount)
    | (split at h <;> cases h <;> first | exact hcount | exact to_uint8_lt _)

/-- The option loop keeps `count` within 8 bits. -/
theorem option_loop_count_lt (opts : List GetoptResult) :
    ∀ (st st1 : Params) (out : List Call), st.count < 256 →
      option_loop st opts = Step.next st1 out → st1.count < 256 := by
  induction opts with
  | nil =>
    intro st st1 out hcount h
    rw [option_loop_nil] at h
    cases h
    exact hcount
  | cons r rs ih =>
    intro st st1 out hcount h
    cases hs : getopt_case st r with
    | exit code0 out0 =>
      rw [option_loop_cons_exit st r rs code0 out0 hs] at h
      cases h
    | next st2 out2 =>
      rw [option_loop_cons_next st st2 r rs out2 hs] at h
      cases hl : option_loop st2 rs with
      | exit code3 out3 =>
        rw [hl] at h
        cases h
      | next st3 out3 =>
        rw [hl] at h
        cases h
        exact ih st2 st1 out3 (getopt_case_count_lt st r hcount st2 out2 hs) hl

/-- A resolved length is within 8 bits when the count is. -/
theorem write_resolve_window_lt (w : World) (t i o c address L : Nat) (out : List Call)
    (hc : c < 256) (h : write_resolve w t i o c = Resolved.window address L out) :
    L < 256 := by
  unfold write_resolve at h
  split_ifs at h <;> cases h
  · exact Nat.mod_lt _ (by decide)
  · exact hc
  · exact hc

/-- The resolution of the register window makes no hex conversion and no
register write. -/
theorem write_resolve_no_hex (w : World) (t i o c : Nat) :
    ∀ x ∈ (write_resolve w t i o c).out, is_hex_or_write x = false := by
  unfold write_resolve
  split_ifs <;> simp [Resolved.out, is_hex_or_write]

/-- The hex conversions and register writes among calls that are neither. -/
theorem filter_hex_of_none (t : List Call) (h : ∀ x ∈ t, is_hex_or_write x = false) :
    t.filter is_hex_or_write = [] := by
  rw [List.filter_eq_nil_iff]
  intro c hc
  simp [h c hc]

/-- C6: in the write command (device initialisation done) with the resolved
register window (address, L), `main` hands L to the hex decoder through
`&count`, together with the capacity of `databuf`.  For every positional hex
string: if it decodes to more than L bytes the conversion fails, `main` prints
"Hex convert error" and returns -1, and no register write is made; if it
decodes to n <= L bytes the conversion succeeds and exactly the n decoded
bytes are written at the resolved address, the status being the result of
that write. -/
theorem C6_hex_bounded_by_resolved_length (w : World) (opts : List GetoptResult)
    (hex : String) (st : Params) (out : List Call) (address L : Nat) (out0 : List Call)
    (bytes : List Nat)
    (hl : option_loop Params.init opts = Step.next st out)
    (hc : st.cmd = CMD_WRITE)
    (hi : ¬ (mxt_init_chip w st.i2c_adapter st.i2c_address).1 < 0)
    (hr : write_resolve w st.object_type st.instance_ st.address st.count =
      Resolved.window address L out0)
    (hb : hexPairs hex.toList = some bytes) :
    (L < bytes.length →
      main w opts [hex] =
        ⟨-1, out ++ ((mxt_init_chip w st.i2c_adapter st.i2c_address).2 ++
          [Call.mxt_set_debug true] ++
          (out0 ++ [Call.mxt_convert_hex hex L BUF_SIZE,
              Call.printf "Hex convert error\n"] ++
            [Call.mxt_set_debug false, Call.mxt_release]))⟩ ∧
      (main w opts [hex]).trace.filter is_hex_or_write =
        [Call.mxt_convert_hex hex L BUF_SIZE]) ∧
    (bytes.length ≤ L →
      (main w opts [hex]).ret = w.mxt_write_register bytes address bytes.length ∧
      (main w opts [hex]).trace.filter is_hex_or_write =
        [Call.mxt_convert_hex hex L BUF_SIZE,
         Call.mxt_write_register bytes address bytes.length]) := by
  have hf : st.cmd ≠ CMD_FLASH := by rw [hc]; decide
  have hq : out.filter is_hex_or_write = [] := filter_hex_of_none out (fun x hx =>
    is_command_of_hex_or_write x ((option_loop_quiet opts Params.init).1 st out hl x hx).2)
  have hn : (mxt_init_chip w st.i2c_adapter st.i2c_address).2.filter is_hex_or_write = [] :=
    filter_hex_of_none _ (fun x hx =>
      is_command_of_hex_or_write x (mxt_init_chip_no_command w _ _ x hx))
  have h0 : out0.filter is_hex_or_write = [] := by
    have := write_resolve_no_hex w st.object_type st.instance_ st.address st.count
    rw [hr] at this
    exact filter_hex_of_none out0 this
  have hL : L < 256 :=
    write_resolve_window_lt w _ _ _ _ address L out0
      (option_loop_count_lt opts Params.init st out (by decide) hl) hr
  rw [main_of_next w opts [hex] st out hl, after_options_init_ok w st [hex] hf hi,
    run_command_write w st [hex] hc, hr]
  constructor
  · intro hlen
    have hconv : mxt_convert_hex hex L BUF_SIZE = none := by
      unfold mxt_convert_hex
      rw [hb]
      exact if_neg (fun h => absurd h.1 (Nat.not_le.2 hlen))
    simp [write_data, hconv, List.filter_append, hq, hn, h0, is_hex_or_write]
  · intro hlen
    have hconv : mxt_convert_hex hex L BUF_SIZE = some bytes := by
      unfold mxt_convert_hex
      rw [hb]
      refine if_pos ⟨hlen, ?_⟩
      unfold BUF_SIZE
      omega
    have hmod : bytes.length % 256 = bytes.length := Nat.mod_eq_of_lt (by omega)
    by_cases hw : w.mxt_write_register bytes address bytes.length < 0
    · simp [write_data, hconv, hmod, hw, List.filter_append, hq, hn, h0, is_hex_or_write]
    · simp [write_data, hconv, hmod, hw, List.filter_append, hq, hn, h0, is_hex_or_write]

/-- C6 at `-W -n 3 -r 10` on the sample device, where the resolved window is
(10, 3): the hex string `00112233` (4 bytes) is the hex convert error with
status -1 and no register write; the hex string `0011` (2 bytes) is written
at address 10 with length 2. -/
theorem C6_hex_bounded_witness :
    ((main sampleWorld
        [opt_short 'W' none, opt_short 'n' (some "3"), opt_short 'r' (some "10")]
        ["00112233"]).ret = -1 ∧
      (main sampleWorld
        [opt_short 'W' none, opt_short 'n' (some "3"), opt_short 'r' (some "10")]
        ["00112233"]).trace.filter is_hex_or_write =
        [Call.mxt_convert_hex "00112233" 3 BUF_SIZE]) ∧
    ((main sampleWorld
        [opt_short 'W' none, opt_short 'n' (some "3"), opt_short 'r' (some "10")]
        ["0011"]).ret = 0 ∧
      (main sampleWorld
        [opt_short 'W' none, opt_short 'n' (some "3"), opt_short 'r' (some "10")]
        ["0011"]).trace.filter is_hex_or_write =
        [Call.mxt_convert_hex "0011" 3 BUF_SIZE, Call.mxt_write_register [0, 17] 10 2]) :=
  have h1 := (C6_hex_bounded_by_resolved_length sampleWorld
    [opt_short 'W' none, opt_short 'n' (some "3"), opt_short 'r' (some "10")]
    "00112233" { Params.init with cmd := CMD_WRITE, count := 3, address := 10 } [] 10 3 []
    [0, 17, 34, 51] (by decide) rfl (by decide) (by decide) (by decide)).1 (by decide)
  have h2 := (C6_hex_bounded_by_resolved_length sampleWorld
    [opt_short 'W' none, opt_short 'n' (some "3"), opt_short 'r' (some "10")]
    "0011" { Params.init with cmd := CMD_WRITE, count := 3, address := 10 } [] 10 3 []
    [0, 17] (by decide) rfl (by decide) (by decide) (by decide)).2 (by decide)
  ⟨⟨by rw [h1.1], h1.2⟩, h2⟩

/-! ## C7: teardown on every exit path -/

/-- C7 fails on the code: on the sample device, `-W` (no object type, count
0) returns -1 after "Not enough arguments!", and `-W -n 3` with no hex
argument returns -1 after "Must give hex input", both after the device was
initialised and without `mxt_release`; and when reading the info block fails
`main` returns -1 without `mxt_release`.  The sibling error path "No such
object" (`-W -T 9 00`) does reach the teardown: `mxt_release` is called once. -/
theorem C7_release_skipped_on_early_returns :
    main sampleWorld [opt_short 'W' none] [] =
        ⟨-1, [Call.mxt_scan, Call.mxt_get_info, Call.mxt_set_debug true,
              Call.printf "Not enough arguments!\n"]⟩ ∧
      main sampleWorld [opt_short 'W' none, opt_short 'n' (some "3")] [] =
        ⟨-1, [Call.mxt_scan, Call.mxt_get_info, Call.mxt_set_debug true,
              Call.printf "Must give hex input\n"]⟩ ∧
      main infoFailWorld [] [] =
        ⟨-1, [Call.mxt_scan, Call.mxt_get_info,
              Call.printf "Error reading info block, exiting...\n"]⟩ ∧
      (main sampleWorld [opt_short 'W' none] []).trace.count Call.mxt_release = 0 ∧
      (main sampleWorld [opt_short 'W' none, opt_short 'n' (some "3")] []).trace.count
        Call.mxt_release = 0 ∧
      (main infoFailWorld [] []).trace.count Call.mxt_release = 0 ∧
      (main sampleWorld [opt_short 'W' none, opt_short 'T' (some "9")] ["00"]).trace.count
        Call.mxt_release = 1 := by
  refine ⟨by decide, by decide, by decide, by decide, by decide, by decide, by decide⟩

/-- The data part of the write command makes no device initialisation call. -/
theorem write_data_no_init (w : World) (address count : Nat) (args : List String) :
    ∀ c ∈ (write_data w address count args).out, is_device_init c = false := by
  unfold write_data
  split
  · split
    · simp [Flow.out, is_device_init]
    · split_ifs <;> simp [Flow.out, is_device_init]
  · simp [Flow.out, is_device_init]

/-- The resolution of the register window makes no device initialisation call. -/
theorem write_resolve_no_init (w : World) (t i o c : Nat) :
    ∀ x ∈ (write_resolve w t i o c).out, is_device_init x = false := by
  unfold write_resolve
  split_ifs <;> simp [Resolved.out, is_device_init]

/-- What a command does holds no device initialisation call. -/
theorem run_command_no_init (w : World) (st : Params) (args : List String) :
    ∀ c ∈ (run_command w st args).trace, is_device_init c = false := by
  cases hc : st.cmd
  case CMD_WRITE =>
    rw [run_command_write w st args hc]
    have h1 := write_resolve_no_init w st.object_type st.instance_ st.address st.count
    cases hr : write_resolve w st.object_type st.instance_ st.address st.count with
    | no_such_object out =>
      rw [hr] at h1
      intro c hm
      rcases List.mem_append.1 hm with hm | hm
      · exact h1 c hm
      · simp only [List.mem_cons, List.not_mem_nil, or_false] at hm
        rcases hm with rfl | rfl <;> rfl
    | not_enough_arguments out =>
      rw [hr] at h1
      exact h1
    | window a n out =>
      rw [hr] at h1
      have h2 := write_data_no_init w a n args
      cases hd : write_data w a n args with
      | brk ret out2 =>
        rw [hd] at h2
        intro c hm
        simp only [hd] at hm
        rcases List.mem_append.1 hm with hm | hm
        · rcases List.mem_append.1 hm with hm | hm
          · exact h1 c hm
          · exact h2 c hm
        · simp only [List.mem_cons, List.not_mem_nil, or_false] at hm
          rcases hm with rfl | rfl <;> rfl
      | rtn ret out2 =>
        rw [hd] at h2
        intro c hm
        simp only [hd] at hm
        rcases List.mem_append.1 hm with hm | hm
        · exact h1 c hm
        · exact h2 c hm
  case CMD_LOAD_CFG =>
    rw [run_command_load_cfg w st args hc]
    unfold load_cfg
    split_ifs <;> simp [is_device_init]
  all_goals simp [run_command, command_switch, hc, is_device_init]

/-! ## C8: the option `--version` -/

/-- The option `--version` prints the version line and returns 0. -/
theorem getopt_case_version (st : Params) (r : GetoptResult) (h : is_version r = true) :
    getopt_case st r = Step.exit 0 [Call.printf "mxt-app %s\n"] := by
  revert h
  apply getopt_case_cases st r (fun s _ _ v => v = true →
    s = Step.exit 0 [Call.printf "mxt-app %s\n"])
  all_goals intro h
  all_goals first
    | (cases h; done)
    | rfl

/-- C8, as stated, fails: the argument vector `-R -W --version` holds
`--version`, yet `main` returns -1 with the usage, at the conflicting `-W`. -/
theorem C8_counterexample_conflict_before_version :
    is_version (opt_long 27 none) = true ∧
      main sampleWorld [opt_short 'R' none, opt_short 'W' none, opt_long 27 none] [] =
        ⟨-1, [Call.print_usage]⟩ := by
  refine ⟨by decide, by decide⟩

/-- C8, amended: when `--version` is among the options, `main` returns from
inside the option loop and never attempts device initialisation or any command
call; the status is 0, or -1 with the usage printed when an option before
`--version` is a usage error; and when every option before `--version` is
accepted `main` prints the version line and returns 0. -/
theorem C8_version_never_initialises (w : World) (opts : List GetoptResult)
    (args : List String) (h : ∃ v ∈ opts, is_version v = true) :
    nothing_executed (main w opts args).trace ∧
    ((main w opts args).ret = 0 ∨
      ((main w opts args).ret = -1 ∧ Call.print_usage ∈ (main w opts args).trace)) ∧
    (∀ pre v post s o, opts = pre ++ v :: post → is_version v = true →
      option_loop Params.init pre = Step.next s o →
      main w opts args = ⟨0, o ++ [Call.printf "mxt-app %s\n"]⟩) := by
  obtain ⟨v, hv, hver⟩ := h
  obtain ⟨pre, post, hsplit⟩ := List.append_of_mem hv
  obtain ⟨code, out, hx⟩ := option_loop_stops_at v (Or.inr hver) pre post Params.init
  rw [← hsplit] at hx
  rw [main_of_exit w opts args code out hx]
  refine ⟨(option_loop_quiet opts Params.init).2 code out hx, ?_, ?_⟩
  · rcases option_loop_exit opts Params.init code out hx with h1 | h1
    · exact Or.inr h1
    · exact Or.inl h1.1
  · intro pre1 v1 post1 s o hs1 hv1 hpre
    rw [hs1, option_loop_append_next pre1 (v1 :: post1) _ s o hpre,
      option_loop_cons_exit s v1 post1 _ _ (getopt_case_version s v1 hv1)] at hx
    cases hx
    rfl

/-- C8, amended, at `-n 4 --version -R`: the version line, status 0, and
nothing executed. -/
theorem C8_version_witness :
    main sampleWorld [opt_short 'n' (some "4"), opt_long 27 none, opt_short 'R' none] [] =
      ⟨0, [] ++ [Call.printf "mxt-app %s\n"]⟩ :=
  (C8_version_never_initialises sampleWorld
    [opt_short 'n' (some "4"), opt_long 27 none, opt_short 'R' none] []
    ⟨opt_long 27 none, by simp, by decide⟩).2.2
    [opt_short 'n' (some "4")] (opt_long 27 none) [opt_short 'R' none]
    { Params.init with count := 4 } [] rfl (by decide) (by decide)

/-! ## C9: device initialisation before the command -/

/-- When the device is not located, `mxt_init_chip` returns -1 after the
locating call and a message, without reading the info block. -/
theorem mxt_init_chip_not_located (w : World) (adapter address : Int)
    (h : ¬ device_located w adapter address) :
    ∃ msg, mxt_init_chip w adapter address =
      (-1, [locate_call adapter address, Call.printf msg]) := by
  unfold device_located at h
  unfold mxt_init_chip locate_call
  by_cases he : adapter ≥ 0 ∧ address > 0
  · have h1 : w.i2c_dev_set_address adapter address < 0 := by
      by_contra hn
      exact h (Or.inl ⟨he, by omega⟩)
    rw [if_pos he, if_pos he, if_pos h1]
    exact ⟨_, rfl⟩
  · have h1 : ¬ 0 < w.mxt_scan := fun hn => h (Or.inr ⟨he, hn⟩)
    rw [if_neg he, if_neg he]
    by_cases h0 : w.mxt_scan = 0
    · rw [if_pos h0]
      exact ⟨_, rfl⟩
    · have h2 : w.mxt_scan < 0 := by omega
      rw [if_neg h0, if_pos h2]
      exact ⟨_, rfl⟩

/-- When the device is located, `mxt_init_chip` reads the info block next, and
returns -1 if that fails and 0 otherwise. -/
theorem mxt_init_chip_located (w : World) (adapter address : Int)
    (h : device_located w adapter address) :
    (w.mxt_get_info < 0 →
      mxt_init_chip w adapter address =
        (-1, [locate_call adapter address, Call.mxt_get_info,
              Call.printf "Error reading info block, exiting...\n"])) ∧
    (¬ w.mxt_get_info < 0 →
      mxt_init_chip w adapter address =
        (0, [locate_call adapter address, Call.mxt_get_info])) := by
  unfold device_located at h
  unfold mxt_init_chip locate_call
  by_cases he : adapter ≥ 0 ∧ address > 0
  · have h1 : ¬ w.i2c_dev_set_address adapter address < 0 := by
      rcases h with h | h
      · omega
      · exact absurd he h.1
    rw [if_pos he, if_pos he, if_neg h1]
    constructor
    · intro hg
      rw [if_pos hg]
    · intro hg
      rw [if_neg hg]
  · have h1 : 0 < w.mxt_scan := by
      rcases h with h | h
      · exact absurd h.1 he
      · exact h.2
    have h2 : ¬ w.mxt_scan = 0 := by omega
    have h3 : ¬ w.mxt_scan < 0 := by omega
    rw [if_neg he, if_neg he, if_neg h2, if_neg h3]
    constructor
    · intro hg
      rw [if_pos hg]
    · intro hg
      rw [if_neg hg]

/-- C9: after the option loop, for every command other than Flash (the menu
included), device initialisation comes first: the device is located with
`i2c_dev_set_address` when adapter >= 0 and address > 0 and with `mxt_scan`
otherwise, then the info block is loaded.  If the device is not located
(`i2c_dev_set_address` negative, scan zero or negative), `main` returns -1
after the locating call and a message; if the info block cannot be loaded,
`main` returns -1 after `mxt_get_info` and its message; in both cases no
command call is made.  Otherwise the locating call and `mxt_get_info` come
before everything the command does, nothing before them is a command call and
the command makes no device initialisation call.  For Flash no device
initialisation call is made and `mxt_flash_firmware` is called directly. -/
theorem C9_init_before_command (w : World) (opts : List GetoptResult) (args : List String)
    (st : Params) (out : List Call)
    (hl : option_loop Params.init opts = Step.next st out) :
    (st.cmd ≠ CMD_FLASH →
      (¬ device_located w st.i2c_adapter st.i2c_address →
        (∃ msg, main w opts args =
          ⟨-1, out ++ [locate_call st.i2c_adapter st.i2c_address, Call.printf msg]⟩) ∧
        ∀ c ∈ (main w opts args).trace, is_command_call c = false) ∧
      (device_located w st.i2c_adapter st.i2c_address → w.mxt_get_info < 0 →
        main w opts args =
          ⟨-1, out ++ [locate_call st.i2c_adapter st.i2c_address, Call.mxt_get_info,
            Call.printf "Error reading info block, exiting...\n"]⟩ ∧
        ∀ c ∈ (main w opts args).trace, is_command_call c = false) ∧
      (device_located w st.i2c_adapter st.i2c_address → ¬ w.mxt_get_info < 0 →
        (main w opts args).ret = (run_command w st args).ret ∧
        (main w opts args).trace =
          (out ++ [locate_call st.i2c_adapter st.i2c_address, Call.mxt_get_info]) ++
            Call.mxt_set_debug true :: (run_command w st args).trace ∧
        (∀ c ∈ out, is_command_call c = false) ∧
        (∀ c ∈ (run_command w st args).trace, is_device_init c = false))) ∧
    (st.cmd = CMD_FLASH →
      (main w opts args).ret =
        w.mxt_flash_firmware st.strbuf st.strbuf2 st.i2c_adapter st.i2c_address ∧
      (main w opts args).trace =
        out ++ [Call.mxt_flash_firmware st.strbuf st.strbuf2 st.i2c_adapter st.i2c_address,
          Call.mxt_set_debug false, Call.mxt_release] ∧
      ∀ c ∈ (main w opts args).trace, is_device_init c = false) := by
  have hq := (option_loop_quiet opts Params.init).1 st out hl
  have hloc : is_command_call (locate_call st.i2c_adapter st.i2c_address) = false := by
    unfold locate_call
    split_ifs <;> rfl
  rw [main_of_next w opts args st out hl]
  constructor
  · intro hc
    refine ⟨?_, ?_, ?_⟩
    · intro hnl
      obtain ⟨msg, hm⟩ := mxt_init_chip_not_located w st.i2c_adapter st.i2c_address hnl
      have hi : (mxt_init_chip w st.i2c_adapter st.i2c_address).1 < 0 := by
        rw [hm]
        show (-1 : Int) < 0
        decide
      rw [after_options_init_failed w st args hc hi, hm]
      refine ⟨⟨msg, rfl⟩, ?_⟩
      intro c hmem
      rcases List.mem_append.1 hmem with hmem | hmem
      · exact (hq c hmem).2
      · simp only [List.mem_cons, List.not_mem_nil, or_false] at hmem
        rcases hmem with rfl | rfl
        · exact hloc
        · rfl
    · intro hloc1 hg
      have hm := (mxt_init_chip_located w st.i2c_adapter st.i2c_address hloc1).1 hg
      have hi : (mxt_init_chip w st.i2c_adapter st.i2c_address).1 < 0 := by
        rw [hm]
        show (-1 : Int) < 0
        decide
      rw [after_options_init_failed w st args hc hi, hm]
      refine ⟨rfl, ?_⟩
      intro c hmem
      rcases List.mem_append.1 hmem with hmem | hmem
      · exact (hq c hmem).2
      · simp only [List.mem_cons, List.not_mem_nil, or_false] at hmem
        rcases hmem with rfl | rfl | rfl
        · exact hloc
        · rfl
        · rfl
    · intro hloc1 hg
      have hm := (mxt_init_chip_located w st.i2c_adapter st.i2c_address hloc1).2 hg
      have hi : ¬ (mxt_init_chip w st.i2c_adapter st.i2c_address).1 < 0 := by
        rw [hm]
        show ¬ (0 : Int) < 0
        decide
      rw [after_options_init_ok w st args hc hi, hm]
      refine ⟨rfl, by simp, fun c hmem => (hq c hmem).2, run_command_no_init w st args⟩
  · intro hc
    rw [after_options_flash w st args hc]
    refine ⟨rfl, rfl, ?_⟩
    intro c hm
    rcases List.mem_append.1 hm with hm | hm
    · exact (hq c hm).1
    · simp only [List.mem_cons, List.not_mem_nil, or_false] at hm
      rcases hm with rfl | rfl | rfl <;> rfl

/-- C9 at `-R`: on the sample device the scan and the info block come before
the read; when the scan finds no device, and when the info block cannot be
loaded, `main` returns -1 and the read is not called; and at `--flash fw.enc`
no device initialisation is made. -/
theorem C9_init_before_command_witness :
    (main sampleWorld [opt_short 'R' none] []).trace =
        ([] ++ [locate_call (-1) (-1), Call.mxt_get_info]) ++
          Call.mxt_set_debug true ::
            (run_command sampleWorld { Params.init with cmd := CMD_READ } []).trace ∧
      (∀ c ∈ (main noDeviceWorld [opt_short 'R' none] []).trace,
        is_command_call c = false) ∧
      main infoFailWorld [opt_short 'R' none] [] =
        ⟨-1, [] ++ [locate_call (-1) (-1), Call.mxt_get_info,
          Call.printf "Error reading info block, exiting...\n"]⟩ ∧
      (main sampleWorld [opt_long 9 (some "fw.enc")] []).trace =
        [] ++ [Call.mxt_flash_firmware "fw.enc" "" (-1) (-1),
          Call.mxt_set_debug false, Call.mxt_release] :=
  ⟨(((C9_init_before_command sampleWorld [opt_short 'R' none] []
      { Params.init with cmd := CMD_READ } [] (by decide)).1 (by decide)).2.2
      (by unfold device_located; decide) (by decide)).2.1,
   (((C9_init_before_command noDeviceWorld [opt_short 'R' none] []
      { Params.init with cmd := CMD_READ } [] (by decide)).1 (by decide)).1
      (by unfold device_located; decide)).2,
   (((C9_init_before_command infoFailWorld [opt_short 'R' none] []
      { Params.init with cmd := CMD_READ } [] (by decide)).1 (by decide)).2.1
      (by unfold device_located; decide) (by decide)).1,
   ((C9_init_before_command sampleWorld [opt_long 9 (some "fw.enc")] []
      { Params.init with cmd := CMD_FLASH, strbuf := "fw.enc" } [] (by decide)).2
      rfl).2.1⟩

/-! ## C10: options that take a numeric value -/

/-- C10, as stated, fails: `-n abc` is not a usage error.  `strtol` converts
"abc" to 0 without signalling anything, the count is set to 0 (replacing the 5
of an earlier `-n 5`), and parsing goes on: with `-R -n 5 -n abc` on the sample
device `main` runs the read command with count 0 and returns 0. -/
theorem C10_counterexample_unparsable_value_accepted :
    strtol "abc" 0 = 0 ∧
      getopt_case { Params.init with count := 5 } (opt_short 'n' (some "abc")) =
        Step.next { Params.init with count := 0 } [] ∧
      main sampleWorld
          [opt_short 'R' none, opt_short 'n' (some "5"), opt_short 'n' (some "abc")] [] =
        ⟨0, [Call.mxt_scan, Call.mxt_get_info, Call.mxt_set_debug true,
             Call.read_object 0 0 0 0 false,
             Call.mxt_set_debug false, Call.mxt_release]⟩ := by
  refine ⟨by decide, by decide, by decide⟩

/-- C10, amended: an option whose required value is absent is reported by
`getopt_long` as `'?'`, and `main` returns -1 with the usage at that option
without reading any further option.  A value that is present is never
rejected: for each of `-n`, `-I`, `-r`, `-T`, `-v`, `-p`, `-d`, `-a`,
`--frames` and `--t68-datatype` the variable is set to what `strtol` yields
for the text, reduced to the type of the variable, and parsing goes on;
`strtol` yields 0 for a text with no leading number and the leading number
for a text that starts with one. -/
theorem C10_option_values :
    (∀ (st : Params) (rs : List GetoptResult),
      option_loop st (opt_error :: rs) =
        Step.exit (-1) [Call.printf "\n\n", Call.print_usage]) ∧
    (∀ (w : World) (pre post : List GetoptResult) (args : List String) (s : Params)
      (o : List Call), option_loop Params.init pre = Step.next s o →
      main w (pre ++ opt_error :: post) args =
        ⟨-1, o ++ [Call.printf "\n\n", Call.print_usage]⟩) ∧
    (∀ (st : Params) (i : Nat) (a : String),
      getopt_case st ⟨chr 'n', i, some a⟩ =
        Step.next { st with count := to_uint8 (strtol a 0) } [] ∧
      getopt_case st ⟨chr 'I', i, some a⟩ =
        Step.next { st with instance_ := to_uint8 (strtol a 0) } [] ∧
      getopt_case st ⟨chr 'r', i, some a⟩ =
        Step.next { st with address := to_uint16 (strtol a 0) } [] ∧
      getopt_case st ⟨chr 'T', i, some a⟩ =
        Step.next { st with object_type := to_uint16 (strtol a 0) } [] ∧
      getopt_case st ⟨chr 'v', i, some a⟩ =
        Step.next { st with verbose := to_uint8 (strtol a 0) }
          [Call.mxt_set_verbose (to_uint8 (strtol a 0))] ∧
      getopt_case st ⟨chr 'p', i, some a⟩ =
        Step.next { st with port := to_uint16 (strtol a 0) } [] ∧
      getopt_case st ⟨chr 'd', i, some a⟩ =
        Step.next { st with i2c_adapter := to_int (strtol a 0) } [] ∧
      getopt_case st ⟨chr 'a', i, some a⟩ =
        Step.next { st with i2c_address := to_int (strtol a 16) } [] ∧
      getopt_case st (opt_long 11 (some a)) =
        Step.next { st with t37_frames := to_uint16 (strtol a 0) } [] ∧
      getopt_case st (opt_long 7 (some a)) =
        Step.next { st with t68_datatype := to_uint8 (strtol a 0) } []) ∧
    (strtol "abc" 0 = 0 ∧ strtol "" 0 = 0 ∧ strtol "zz" 16 = 0 ∧ strtol "12abc" 0 = 12) := by
  have herr : ∀ st : Params, getopt_case st opt_error =
      Step.exit (-1) [Call.printf "\n\n", Call.print_usage] := fun st => rfl
  refine ⟨?_, ?_, ?_, by decide⟩
  · intro st rs
    exact option_loop_cons_exit st opt_error rs _ _ (herr st)
  · intro w pre post args s o hpre
    apply main_of_exit
    rw [option_loop_append_next pre (opt_error :: post) _ s o hpre,
      option_loop_cons_exit s opt_error post _ _ (herr s)]
  · intro st i a
    exact ⟨rfl, rfl, rfl, rfl, rfl, rfl, rfl, rfl, rfl, rfl⟩

/-- C10, amended, at `-R -n` (the value of `-n` is missing): the usage error
with status -1. -/
theorem C10_option_values_witness :
    main sampleWorld ([opt_short 'R' none] ++ opt_error :: []) [] =
      ⟨-1, [] ++ [Call.printf "\n\n", Call.print_usage]⟩ :=
  C10_option_values.2.1 sampleWorld [opt_short 'R' none] [] []
    { Params.init with cmd := CMD_READ } [] (by decide)

/-! ## C11: the count given with `-n` and the declared size -/

/-- A value from 0 to 255 is kept by the conversion to `uint8_t`. -/
theorem to_uint8_of_range (N : Int) (h0 : 0 ≤ N) (h1 : N ≤ 255) : to_uint8 N = N.toNat := by
  unfold to_uint8
  rw [Int.emod_eq_of_lt h0 (by omega)]

/-- C11, as stated, fails: with `-W -T 7 -n 256 00` on the sample device
(object (7, 0) present, declared size 8) the user passed the count 256, which
is not zero; `strtol` yields 256, the `uint8_t` `count` holds 0, and the
resolved length is the declared size 8: `get_object_size` is called.  With
`-n 257` the resolved length is 1. -/
theorem C11_counterexample_count_256_defaults :
    strtol "256" 0 = 256 ∧
      getopt_case { Params.init with cmd := CMD_WRITE, object_type := 7 }
          (opt_short 'n' (some "256")) =
        Step.next { Params.init with cmd := CMD_WRITE, object_type := 7, count := 0 } [] ∧
      write_resolve sampleWorld 7 0 0 (to_uint8 (strtol "256" 0)) =
        Resolved.window 100 8 [Call.get_object_address 7 0, Call.get_object_size 7] ∧
      write_resolve sampleWorld 7 0 0 (to_uint8 (strtol "257" 0)) =
        Resolved.window 100 1 [Call.get_object_address 7 0] ∧
      main sampleWorld
          [opt_short 'W' none, opt_short 'T' (some "7"), opt_short 'n' (some "256")]
          ["00"] =
        ⟨0, [Call.mxt_scan, Call.mxt_get_info, Call.mxt_set_debug true,
             Call.get_object_address 7 0, Call.get_object_size 7,
             Call.mxt_convert_hex "00" 8 1024, Call.mxt_write_register [0] 100 1,
             Call.mxt_set_debug false, Call.mxt_release]⟩ := by
  refine ⟨by decide, by decide, by decide, by decide, by decide⟩

/-- C11, amended: in the write command with an object type > 0 that is
present in the directory, for every `-n` value N from 1 to 255 the count is N,
the resolved length is N, and the declared size is not consulted; the length
is the declared size (8 bit) when the count is zero, which is what `-n 0`
leaves and what the count is when no `-n` is given. -/
theorem C11_count_in_range_is_kept (w : World) (st : Params) (i : Nat) (a : String)
    (N : Int) (t inst o s : Nat)
    (hN : strtol a 0 = N) (ht : t > 0) (hp : object_present w t inst)
    (hs : w.get_object_size t = s) (hs8 : s < 256) :
    (1 ≤ N → N ≤ 255 →
      getopt_case st ⟨chr 'n', i, some a⟩ = Step.next { st with count := N.toNat } [] ∧
      ∃ address out,
        write_resolve w t inst o N.toNat = Resolved.window address N.toNat out ∧
        Call.get_object_size t ∉ out) ∧
    (N = 0 →
      getopt_case st ⟨chr 'n', i, some a⟩ = Step.next { st with count := 0 } [] ∧
      ∃ address out, write_resolve w t inst o 0 = Resolved.window address s out) ∧
    Params.init.count = 0 := by
  have hstep : getopt_case st ⟨chr 'n', i, some a⟩ =
      Step.next { st with count := to_uint8 (strtol a 0) } [] := rfl
  refine ⟨?_, ?_, rfl⟩
  · intro h1 h2
    have hne : N.toNat ≠ 0 := by omega
    rw [hstep, hN, to_uint8_of_range N (by omega) h2]
    have key := write_resolve_present w t inst o N.toNat ht hp
    rw [if_neg hne, if_neg hne] at key
    exact ⟨rfl, _, _, key, by simp⟩
  · intro h0
    subst h0
    rw [hstep, hN]
    have key := write_resolve_present w t inst o 0 ht hp
    rw [if_pos rfl, if_pos rfl, hs, Nat.mod_eq_of_lt hs8] at key
    exact ⟨rfl, _, _, key⟩

/-- C11, amended, at `-n 3` for the object (7, 0) of the sample device: the
count is 3 and the resolved length is 3, not the declared size 8. -/
theorem C11_count_in_range_witness :
    getopt_case Params.init ⟨chr 'n', 0, some "3"⟩ =
        Step.next { Params.init with count := 3 } [] ∧
      ∃ address out,
        write_resolve sampleWorld 7 0 0 3 = Resolved.window address 3 out ∧
        Call.get_object_size 7 ∉ out :=
  (C11_count_in_range_is_kept sampleWorld Params.init 0 "3" 3 7 0 0 8 (by decide)
    (by decide) (by unfold object_present; decide) (by decide) (by decide)).1
    (by decide) (by decide)

end MxtApp
